import Mathlib

/-!
# EL3 secure-monitor call dispatcher: shallow embedding

Embedding of `src/services/smc/smc_main.c` and of the policy helpers of
`src/modules_internel/security/el3_protect.c`.

Conventions.
* `uint64_t` / `uint32_t` values are natural numbers; every C operation that
  can wrap carries its explicit `% 2^64` (`add64`, `mul64`).
* `int` values are integers; the two conversions the code relies on are
  `int_of_u64` (a `uint64_t` constant returned from an `int` function) and
  `u64_of_int` (the cast `(uint64_t)rc`).
* The four output pointers of a service are a pair: `RetPtrs` says which of
  them are `NULL`, `Rets` holds the contents of the four cells.
* The file-scope variables of `smc_main.c` are the record `Globals`.
* `spin_lock` is a loop that need not terminate; it takes fuel and answers
  `none` when the fuel runs out.
* An external handler is a function of its eight arguments and of the four
  cells it is handed; it returns its `int` code and the new cell contents.
* Diagnostic UART output and the (empty) cache maintenance helpers have no
  effect on the modelled state.
-/

namespace El3

/-! ## Machine arithmetic -/

/-- Wrapping `uint64_t` addition. -/
def add64 (a b : Nat) : Nat := (a + b) % 2 ^ 64

/-- Wrapping `uint64_t` multiplication. -/
def mul64 (a b : Nat) : Nat := (a * b) % 2 ^ 64

/-- Conversion of a `uint64_t` to `int` (32 bits, two's complement), as done
by `return SMC_ERR_...;` in a function whose return type is `int`. -/
def int_of_u64 (v : Nat) : Int :=
  if v % 2 ^ 32 < 2 ^ 31 then ((v % 2 ^ 32 : Nat) : Int)
  else ((v % 2 ^ 32 : Nat) : Int) - 2 ^ 32

/-- The cast `(uint64_t)rc` of an `int`. -/
def u64_of_int (rc : Int) : Nat := (rc % 2 ^ 64).toNat

/-! ## Constants of `smc_main.c` -/

def TEE_BASE : Nat := 0x00000000
def TEE_SIZE : Nat := 0x100000000
def NS_BASE : Nat := 0x100000000
def NS_SIZE : Nat := 0x100000000
def PERIPH_BASE : Nat := 0xFE000000
def PERIPH_SIZE : Nat := 0x02000000

def SMC_OK : Nat := 0
/-- Value of `(uint64_t)-1`. -/
def SMC_ERR_UNKNOWN_FID : Nat := 2 ^ 64 - 1
/-- Value of `(uint64_t)-2`. -/
def SMC_ERR_INVALID_ARGS : Nat := 2 ^ 64 - 2
/-- Value of `(uint64_t)-3`. -/
def SMC_ERR_INTERNAL : Nat := 2 ^ 64 - 3
/-- Value of `(uint64_t)-4`. -/
def SMC_ERR_BUSY : Nat := 2 ^ 64 - 4

def FID_ECHO : Nat := 0x84000001
def FID_MATH : Nat := 0x84000002
def FID_FORWARD_EXT : Nat := 0x84000003

def SHARED_BUF_ADDR : Nat := add64 TEE_BASE 0x00100000
def SHARED_BUF_SIZE : Nat := 0x1000
def SMC_SHM_MAGIC : Nat := 0x534D4353

/-- Constant `SMC_DENIED` of `el3_protect.c`. -/
def SMC_DENIED : Nat := 0xFFFFFFFFFFFFFFFF

/-! ## Data model -/

/-- The four output pointers of a service: `nullK = true` when the K-th
pointer is `NULL`. -/
structure RetPtrs where
  null0 : Bool
  null1 : Bool
  null2 : Bool
  null3 : Bool
  deriving DecidableEq, Repr

/-- The test `!r0||!r1||!r2||!r3`. -/
def RetPtrs.any_null (p : RetPtrs) : Bool :=
  p.null0 || p.null1 || p.null2 || p.null3

/-- Four valid output pointers. -/
def non_null : RetPtrs := ⟨false, false, false, false⟩

/-- Contents of the four output cells. -/
structure Rets where
  r0 : Nat
  r1 : Nat
  r2 : Nat
  r3 : Nat
  deriving DecidableEq, Repr

/-- The record `struct smc_shared_cmd`; `args` and `results` are spelt out
slot by slot. -/
structure smc_shared_cmd where
  magic : Nat
  version : Nat
  fid : Nat
  args0 : Nat
  args1 : Nat
  args2 : Nat
  args3 : Nat
  args4 : Nat
  args5 : Nat
  args6 : Nat
  args7 : Nat
  status : Nat
  results0 : Nat
  results1 : Nat
  results2 : Nat
  results3 : Nat
  reserved : List Nat
  deriving DecidableEq, Repr

/-- The value of `sizeof(struct smc_shared_cmd)`: 4 + 4 + 8 + 8*8 + 8 + 4*8 + 64. -/
def sizeof_smc_shared_cmd : Nat := 4 + 4 + 8 + 8 * 8 + 8 + 4 * 8 + 64

/-- The type `smc_service_t` for a function that touches nothing but its
output cells. -/
abbrev smc_service_t : Type :=
  Nat → Nat → Nat → Nat → Nat → Nat → Nat → Nat → RetPtrs → Rets → Int × Rets

/-- File-scope state of `smc_main.c`: the lock word, the record at
`SHARED_BUF_ADDR`, and the registered external handler (`none` is `NULL`). -/
structure Globals where
  spin_lock_val : Nat
  shared_cmd : smc_shared_cmd
  external_service_handler : Option smc_service_t

/-- The type `smc_service_t` for a registry entry: such a function may spin
on the lock (fuel) and may change the file-scope state. -/
abbrev smc_registered_t : Type :=
  Nat → Globals → Nat → Nat → Nat → Nat → Nat → Nat → Nat → Nat → RetPtrs → Rets →
    Option (Int × Rets × Globals)

/-- The record `struct smc_entry`. -/
structure smc_entry where
  fid : Nat
  fn : smc_registered_t
  name : String

/-! ## Lock -/

/-- The builtin `__atomic_test_and_set`: it works on the byte at the address
of the lock word (the low byte, little endian), answers whether that byte was
set, and sets it to 1. -/
def atomic_test_and_set (lock : Nat) : Bool × Nat :=
  (lock % 256 != 0, lock - lock % 256 + 1)

/-- The builtin `__atomic_clear`: clears the same byte. -/
def atomic_clear (lock : Nat) : Nat := lock - lock % 256

/-- The loop `while (__atomic_test_and_set(lock, ...)) {}`. -/
def spin_lock : Nat → Nat → Option Nat
  | 0, _ => none
  | fuel + 1, lock =>
    match atomic_test_and_set lock with
    | (true, lock') => spin_lock fuel lock'
    | (false, lock') => some lock'

def spin_unlock (lock : Nat) : Nat := atomic_clear lock

/-- The setter `register_external_service`. -/
def register_external_service (g : Globals) (fn : Option smc_service_t) : Globals :=
  { g with external_service_handler := fn }

/-! ## Helpers -/

def is_valid_tee_range (addr size : Nat) : Nat :=
  if size = 0 then 0
  else if addr < TEE_BASE then 0
  else
    let «end» := add64 addr size
    if «end» < addr then 0
    else if «end» > add64 TEE_BASE TEE_SIZE then 0
    else 1

/-! ## Local services -/

def svc_echo : smc_service_t :=
  fun a0 a1 a2 _a3 _a4 _a5 _a6 _a7 p r =>
    if p.any_null then (int_of_u64 SMC_ERR_INTERNAL, r)
    else (0, { r0 := SMC_OK, r1 := a0, r2 := a1, r3 := a2 })

def svc_math : smc_service_t :=
  fun _a0 a1 a2 a3 a4 a5 _a6 _a7 p r =>
    if p.any_null then (int_of_u64 SMC_ERR_INTERNAL, r)
    else
      let r := { r with r2 := 0, r3 := 0 }
      if a1 = 0 then
        (0, { r with r1 := add64 (add64 (add64 a2 a3) a4) a5, r0 := SMC_OK })
      else if a1 = 1 then
        (0, { r with r1 := mul64 a2 a3, r0 := SMC_OK })
      else if a1 = 2 then
        (0, { r with r1 := a2 ^^^ a3 ^^^ a4 ^^^ a5, r0 := SMC_OK })
      else
        (int_of_u64 SMC_ERR_INVALID_ARGS, { r with r0 := SMC_ERR_INVALID_ARGS })

/-! ## Forwarding service -/

def svc_forward_external : smc_registered_t :=
  fun fuel g a0 a1 a2 a3 a4 a5 a6 a7 p r =>
    if p.any_null then some (int_of_u64 SMC_ERR_INTERNAL, r, g)
    else
      match spin_lock fuel g.spin_lock_val with
      | none => none
      | some held =>
        if is_valid_tee_range SHARED_BUF_ADDR sizeof_smc_shared_cmd = 0 then
          some (int_of_u64 SMC_ERR_INTERNAL, { r with r0 := SMC_ERR_INTERNAL },
            { g with spin_lock_val := spin_unlock held })
        else
          let buf : smc_shared_cmd :=
            { g.shared_cmd with
              magic := SMC_SHM_MAGIC % 2 ^ 32, version := 1, fid := a0,
              args0 := a0, args1 := a1, args2 := a2, args3 := a3,
              args4 := a4, args5 := a5, args6 := a6, args7 := a7 }
          match g.external_service_handler with
          | none =>
            some (int_of_u64 SMC_ERR_INTERNAL, { r with r0 := SMC_ERR_INTERNAL },
              { g with shared_cmd := buf, spin_lock_val := spin_unlock held })
          | some h =>
            let out := h buf.fid buf.args1 buf.args2 buf.args3
              buf.args4 buf.args5 buf.args6 buf.args7 non_null
              ⟨buf.status, buf.results0, buf.results1, buf.results2⟩
            let buf : smc_shared_cmd :=
              { buf with status := out.2.r0, results0 := out.2.r1,
                         results1 := out.2.r2, results2 := out.2.r3 }
            some (0,
              { r0 := buf.status, r1 := buf.results0, r2 := buf.results1, r3 := buf.results2 },
              { g with shared_cmd := buf, spin_lock_val := spin_unlock held })

/-! ## Registry and router -/

/-- A service that neither spins nor touches the file-scope state. -/
def local_service (f : smc_service_t) : smc_registered_t :=
  fun _fuel g a0 a1 a2 a3 a4 a5 a6 a7 p r =>
    some ((f a0 a1 a2 a3 a4 a5 a6 a7 p r).1, (f a0 a1 a2 a3 a4 a5 a6 a7 p r).2, g)

def registry : List smc_entry :=
  [ ⟨FID_ECHO, local_service svc_echo, "echo"⟩,
    ⟨FID_MATH, local_service svc_math, "math"⟩,
    ⟨FID_FORWARD_EXT, svc_forward_external, "forward_external"⟩ ]

/-- The `for` loop of `smc_handler` over the entries still to be scanned. -/
def smc_handler_scan : List smc_entry → Nat → Globals →
    Nat → Nat → Nat → Nat → Nat → Nat → Nat → Nat → RetPtrs → Rets →
    Option (Rets × Globals)
  | [], _, g, _, _, _, _, _, _, _, _, _, r => some (r, g)
  | e :: rest, fuel, g, arg0, arg1, arg2, arg3, arg4, arg5, arg6, arg7, p, r =>
    if e.fid = arg0 then
      match e.fn fuel g arg0 arg1 arg2 arg3 arg4 arg5 arg6 arg7 p r with
      | none => none
      | some (rc, r', g') =>
        if rc = 0 ∧ r'.r0 = 0 then some ({ r' with r0 := SMC_OK }, g')
        else if rc ≠ 0 then some ({ r' with r0 := u64_of_int rc }, g')
        else some (r', g')
    else smc_handler_scan rest fuel g arg0 arg1 arg2 arg3 arg4 arg5 arg6 arg7 p r

def smc_handler (fuel : Nat) (g : Globals)
    (arg0 arg1 arg2 arg3 arg4 arg5 arg6 arg7 : Nat) (p : RetPtrs) (r : Rets) :
    Option (Rets × Globals) :=
  if p.any_null then some (r, g)
  else
    smc_handler_scan registry fuel g arg0 arg1 arg2 arg3 arg4 arg5 arg6 arg7 p
      { r0 := SMC_ERR_UNKNOWN_FID, r1 := 0, r2 := 0, r3 := 0 }

/-! ## Default external service and initialisation -/

def example_external_service : smc_service_t :=
  fun _fid subcmd p2 p3 p4 p5 p6 _p7 p r =>
    if p.any_null then (int_of_u64 SMC_ERR_INTERNAL, r)
    else if subcmd = 0x10 then
      (0, { r1 := add64 (add64 p2 p3) p4, r2 := p5, r3 := p6, r0 := SMC_OK })
    else
      (int_of_u64 SMC_ERR_INVALID_ARGS, { r with r0 := SMC_ERR_INVALID_ARGS })

def smc_services_init (g : Globals) : Globals :=
  let g :=
    if is_valid_tee_range SHARED_BUF_ADDR sizeof_smc_shared_cmd ≠ 0 then
      { g with shared_cmd :=
          { g.shared_cmd with
            magic := SMC_SHM_MAGIC % 2 ^ 32, version := 1, fid := 0,
            status := SMC_ERR_INTERNAL,
            results0 := 0, results1 := 0, results2 := 0, results3 := 0 } }
    else g
  register_external_service g (some example_external_service)

/-! ## Policy helpers of `el3_protect.c` -/

/-- The check `is_secure_addr`; `TEE_BASE` and `TEE_SIZE` have the same values
in both files. -/
def is_secure_addr (addr size : Nat) : Nat :=
  if addr ≥ TEE_BASE ∧ add64 addr size ≤ add64 TEE_BASE TEE_SIZE then 1 else 0

/-- Byte-addressed physical memory. -/
abbrev Mem : Type := Nat → Nat

/-- A 32-bit little-endian load, the access `*((volatile uint32_t*)addr)`. -/
def load32 (m : Mem) (addr : Nat) : Nat :=
  m addr % 256 + 256 * (m (add64 addr 1) % 256) + 65536 * (m (add64 addr 2) % 256)
    + 16777216 * (m (add64 addr 3) % 256)

/-- A 32-bit little-endian store, the access `*((volatile uint32_t*)addr) = val`. -/
def store32 (m : Mem) (addr val : Nat) : Mem :=
  fun a =>
    if a = addr then val % 256
    else if a = add64 addr 1 then val / 256 % 256
    else if a = add64 addr 2 then val / 65536 % 256
    else if a = add64 addr 3 then val / 16777216 % 256
    else m a

def secure_read32 (m : Mem) (addr : Nat) : Nat :=
  if is_secure_addr addr 4 = 0 then 0
  else load32 m addr

def secure_write32 (m : Mem) (addr val : Nat) : Mem :=
  if is_secure_addr addr 4 = 0 then m
  else store32 m addr val

/-- The helper `mmio_read32`. -/
def mmio_read32 (m : Mem) (addr : Nat) : Nat := load32 m addr

/-- The helper `mmio_write32`. -/
def mmio_write32 (m : Mem) (addr val : Nat) : Mem := store32 m addr val

/-- The constant `PERIPH_BASE` of `el3_protect.c`, written `0x0FE000000ULL`
there. -/
def PROTECT_PERIPH_BASE : Nat := 0x0FE000000

def secure_periph_write (m : Mem) (addr val : Nat) : Mem :=
  if addr < PROTECT_PERIPH_BASE ∨ addr ≥ add64 PROTECT_PERIPH_BASE PERIPH_SIZE then m
  else mmio_write32 m addr val

def secure_periph_read (m : Mem) (addr : Nat) : Nat :=
  if addr < PROTECT_PERIPH_BASE ∨ addr ≥ add64 PROTECT_PERIPH_BASE PERIPH_SIZE then 0
  else mmio_read32 m addr

/-- The helper `write_x0`: the register x0 after `mov x0, val`. -/
def write_x0 (val _x0 : Nat) : Nat := val

/-- The function `deny_smc_if_detected` as a map on the register x0: `esr` is
the value `read_esr_el3` returns, `x0` the register on entry, the result the
register on return. -/
def deny_smc_if_detected (esr x0 : Nat) : Nat :=
  let ec := ((esr >>> 26) &&& 0x3F) % 2 ^ 32
  if ec = 0x16 then write_x0 SMC_DENIED x0
  else x0

/-! ## The region predicate as the specification words it -/

/-- The predicate `inRegion(addr, size, region)` in the words of the
specification: `size > 0`, `addr ≥ region.base`, `addr + size` does not
overflow 64 bits, and `addr + size ≤ region.base + region.size`. -/
def inRegion (addr size base rsize : Nat) : Prop :=
  size > 0 ∧ addr ≥ base ∧ addr + size < 2 ^ 64 ∧ addr + size ≤ base + rsize

instance (addr size base rsize : Nat) : Decidable (inRegion addr size base rsize) := by
  unfold inRegion
  infer_instance

/-! ## Concrete states used to exercise the theorems -/

/-- A command buffer filled with recognisable junk. -/
def junk_cmd : smc_shared_cmd :=
  { magic := 7, version := 9, fid := 11,
    args0 := 20, args1 := 21, args2 := 22, args3 := 23,
    args4 := 24, args5 := 25, args6 := 26, args7 := 27,
    status := 30, results0 := 31, results1 := 32, results2 := 33, results3 := 34,
    reserved := [] }

/-- The state at reset: lock free, no handler registered, buffer not yet written. -/
def boot_globals : Globals :=
  { spin_lock_val := 0, shared_cmd := junk_cmd, external_service_handler := none }

/-- The state after `smc_services_init` ran on the reset state. -/
def ready_globals : Globals := smc_services_init boot_globals

/-- Two states with the default handler and a free lock that differ only in
what the command buffer holds in `results[0..2]`. -/
def stale_a : Globals :=
  { spin_lock_val := 0, shared_cmd := junk_cmd,
    external_service_handler := some example_external_service }

def stale_b : Globals :=
  { spin_lock_val := 0,
    shared_cmd := { junk_cmd with results0 := 51, results1 := 52, results2 := 53 },
    external_service_handler := some example_external_service }

/-- A handler that writes what `example_external_service` writes and always
returns 0. -/
def quiet_external_service : smc_service_t :=
  fun fid subcmd p2 p3 p4 p5 p6 p7 p r =>
    (0, (example_external_service fid subcmd p2 p3 p4 p5 p6 p7 p r).2)

/-- A service whose return code and r0 cell disagree: it returns -5 and leaves
7 in r0, 8 in r1. -/
def mismatch_service : smc_registered_t :=
  fun _fuel g _a0 _a1 _a2 _a3 _a4 _a5 _a6 _a7 _p r =>
    some (-5, { r with r0 := 7, r1 := 8 }, g)

/-- A service that returns 0 and leaves the domain status 9 in r0. -/
def status_nine_service : smc_registered_t :=
  fun _fuel g _a0 _a1 _a2 _a3 _a4 _a5 _a6 _a7 _p r =>
    some (0, { r with r0 := 9 }, g)

/-- A registry holding the echo service and the two services above. -/
def sample_registry : List smc_entry :=
  [ ⟨FID_ECHO, local_service svc_echo, "echo"⟩,
    ⟨0x84000010, mismatch_service, "mismatch"⟩,
    ⟨0x84000011, status_nine_service, "status_nine"⟩ ]

/-! ## Generic facts -/

theorem int_of_u64_internal : int_of_u64 SMC_ERR_INTERNAL = -3 := by decide

theorem int_of_u64_invalid_args : int_of_u64 SMC_ERR_INVALID_ARGS = -2 := by decide

theorem non_null_any_null : non_null.any_null = false := rfl

theorem spin_lock_free (fuel : Nat) : spin_lock (fuel + 1) 0 = some 1 := by
  simp [spin_lock, atomic_test_and_set]

theorem spin_unlock_one : spin_unlock 1 = 0 := by
  simp [spin_unlock, atomic_clear]

/-- The cast `(uint64_t)rc` of a 32-bit `int` is its sign extension. -/
theorem u64_of_int_sign_extend (rc : Int) (hlo : -2 ^ 31 ≤ rc) (hhi : rc < 2 ^ 31) :
    u64_of_int rc = if 0 ≤ rc then rc.toNat else 2 ^ 64 - rc.natAbs := by
  unfold u64_of_int
  split_ifs with h <;> omega

/-- One step of the registry scan that hits: the entry in front of the first
match is the one invoked, and the router post-processes its outcome. -/
theorem smc_handler_scan_hit (pre post : List smc_entry) (e : smc_entry)
    (fuel : Nat) (g g' : Globals) (a0 a1 a2 a3 a4 a5 a6 a7 : Nat) (p : RetPtrs)
    (r r' : Rets) (rc : Int)
    (hpre : ∀ x ∈ pre, x.fid ≠ a0) (he : e.fid = a0)
    (hfn : e.fn fuel g a0 a1 a2 a3 a4 a5 a6 a7 p r = some (rc, r', g')) :
    smc_handler_scan (pre ++ e :: post) fuel g a0 a1 a2 a3 a4 a5 a6 a7 p r =
      some (⟨if rc = 0 then r'.r0 else u64_of_int rc, r'.r1, r'.r2, r'.r3⟩, g') := by
  induction pre with
  | nil =>
    simp only [List.nil_append, smc_handler_scan, he, if_true, hfn]
    by_cases hz : rc = 0
    · by_cases h0 : r'.r0 = 0
      · simp [hz, h0, SMC_OK]
      · simp [hz, h0]
    · simp [hz]
  | cons x xs ih =>
    have hx : x.fid ≠ a0 := hpre x (List.mem_cons_self _ _)
    have hxs : ∀ y ∈ xs, y.fid ≠ a0 := fun y hy => hpre y (List.mem_cons_of_mem _ hy)
    simp only [List.cons_append, smc_handler_scan, hx, if_false]
    exact ih hxs

/-- A scan that misses every entry leaves the cells and the state alone. -/
theorem smc_handler_scan_miss (es : List smc_entry)
    (fuel : Nat) (g : Globals) (a0 a1 a2 a3 a4 a5 a6 a7 : Nat) (p : RetPtrs) (r : Rets)
    (hes : ∀ x ∈ es, x.fid ≠ a0) :
    smc_handler_scan es fuel g a0 a1 a2 a3 a4 a5 a6 a7 p r = some (r, g) := by
  induction es with
  | nil => simp [smc_handler_scan]
  | cons x xs ih =>
    have hx : x.fid ≠ a0 := hes x (List.mem_cons_self _ _)
    simp only [smc_handler_scan, hx, if_false]
    exact ih (fun y hy => hes y (List.mem_cons_of_mem _ hy))

/-! ## Call Router -/

/-- C1: for every `a0` outside the three registered FIDs, every `a1..a7`, every
forwarding state and every prior content of the four non-null output cells,
`smc_handler` returns with `r0 = UNKNOWN_FID = 0xFFFFFFFFFFFFFFFF` and
`r1 = r2 = r3 = 0` (and leaves the forwarding state as it was); no fuel is
needed. -/
theorem smc_handler_unknown_fid (fuel : Nat) (g : Globals)
    (a0 a1 a2 a3 a4 a5 a6 a7 : Nat) (r : Rets)
    (h1 : a0 ≠ 0x84000001) (h2 : a0 ≠ 0x84000002) (h3 : a0 ≠ 0x84000003) :
    smc_handler fuel g a0 a1 a2 a3 a4 a5 a6 a7 non_null r =
      some (⟨0xFFFFFFFFFFFFFFFF, 0, 0, 0⟩, g) := by
  have hmiss : ∀ x ∈ registry, x.fid ≠ a0 := by
    intro x hx
    simp only [registry, List.mem_cons, List.mem_singleton, List.not_mem_nil, or_false] at hx
    rcases hx with rfl | rfl | rfl
    · exact fun h => h1 (by simpa [FID_ECHO] using h.symm)
    · exact fun h => h2 (by simpa [FID_MATH] using h.symm)
    · exact fun h => h3 (by simpa [FID_FORWARD_EXT] using h.symm)
  unfold smc_handler
  simp only [non_null_any_null, Bool.false_eq_true, if_false]
  rw [smc_handler_scan_miss registry fuel g a0 a1 a2 a3 a4 a5 a6 a7 _ _ hmiss]
  simp [SMC_ERR_UNKNOWN_FID]

theorem smc_handler_unknown_fid_witness :
    smc_handler 0 boot_globals 0x84000004 1 2 3 4 5 6 7 non_null ⟨40, 41, 42, 43⟩ =
      some (⟨0xFFFFFFFFFFFFFFFF, 0, 0, 0⟩, boot_globals) :=
  smc_handler_unknown_fid 0 boot_globals 0x84000004 1 2 3 4 5 6 7 ⟨40, 41, 42, 43⟩
    (by decide) (by decide) (by decide)

/-- The three registered FIDs are distinct, so each entry is the first match for
its own FID. -/
theorem registry_split (e : smc_entry) (he : e ∈ registry) :
    ∃ pre post, registry = pre ++ e :: post ∧ ∀ x ∈ pre, x.fid ≠ e.fid := by
  simp only [registry, List.mem_cons, List.mem_singleton, List.not_mem_nil, or_false] at he
  rcases he with rfl | rfl | rfl
  · exact ⟨[], _, rfl, by simp⟩
  · exact ⟨[_], _, rfl, by simp [FID_ECHO, FID_MATH]⟩
  · exact ⟨[_, _], _, rfl, by simp [FID_ECHO, FID_MATH, FID_FORWARD_EXT]⟩

/-- The router on a registered FID: the service of that entry runs on the
preset cells and its outcome is post-processed. -/
theorem smc_handler_hit (e : smc_entry) (he : e ∈ registry)
    (fuel : Nat) (g g' : Globals) (a1 a2 a3 a4 a5 a6 a7 : Nat) (r r' : Rets) (rc : Int)
    (hfn : e.fn fuel g e.fid a1 a2 a3 a4 a5 a6 a7 non_null
      ⟨SMC_ERR_UNKNOWN_FID, 0, 0, 0⟩ = some (rc, r', g')) :
    smc_handler fuel g e.fid a1 a2 a3 a4 a5 a6 a7 non_null r =
      some (⟨if rc = 0 then r'.r0 else u64_of_int rc, r'.r1, r'.r2, r'.r3⟩, g') := by
  obtain ⟨pre, post, hsplit, hpre⟩ := registry_split e he
  unfold smc_handler
  simp only [non_null_any_null, Bool.false_eq_true, if_false]
  rw [hsplit, smc_handler_scan_hit pre post e fuel g g' e.fid a1 a2 a3 a4 a5 a6 a7 _ _ r' rc
    hpre rfl hfn]

/-- C2: router error precedence, for any handler outcome. Let the registry scan
reach an entry `e` as the first match for `a0` (in any table of entries), and
let its service return the 32-bit `int` code `rc` and leave the cells `r'` and
the state `g'`. Then the router reports in r0 the sign extension of `rc` to 64
bits whenever `rc ≠ 0`, whatever `r'.r0` is, and exactly `r'.r0` whenever
`rc = 0` (a non-zero status written with `rc = 0` survives, `r'.r0 = 0` gives
OK = 0); r1..r3 and the state are what the service left. `smc_handler` with
non-null outputs is this scan over `registry` started on the preset cells, so
the same holds for every registered service. -/
theorem smc_handler_error_precedence (pre post : List smc_entry) (e : smc_entry)
    (fuel : Nat) (g g' : Globals) (a0 a1 a2 a3 a4 a5 a6 a7 : Nat) (p : RetPtrs)
    (r r' : Rets) (rc : Int)
    (hpre : ∀ x ∈ pre, x.fid ≠ a0) (he : e.fid = a0)
    (hlo : -2 ^ 31 ≤ rc) (hhi : rc < 2 ^ 31)
    (hfn : e.fn fuel g a0 a1 a2 a3 a4 a5 a6 a7 p r = some (rc, r', g')) :
    smc_handler_scan (pre ++ e :: post) fuel g a0 a1 a2 a3 a4 a5 a6 a7 p r =
      some (⟨if rc = 0 then r'.r0 else if 0 ≤ rc then rc.toNat else 2 ^ 64 - rc.natAbs,
             r'.r1, r'.r2, r'.r3⟩, g')
    ∧ (∀ r0 : Rets, smc_handler fuel g a0 a1 a2 a3 a4 a5 a6 a7 non_null r0 =
        smc_handler_scan registry fuel g a0 a1 a2 a3 a4 a5 a6 a7 non_null
          ⟨SMC_ERR_UNKNOWN_FID, 0, 0, 0⟩)
    ∧ (pre ++ e :: post = registry → p = non_null → r = ⟨SMC_ERR_UNKNOWN_FID, 0, 0, 0⟩ →
        ∀ r0 : Rets, smc_handler fuel g a0 a1 a2 a3 a4 a5 a6 a7 non_null r0 =
          some (⟨if rc = 0 then r'.r0 else if 0 ≤ rc then rc.toNat else 2 ^ 64 - rc.natAbs,
                 r'.r1, r'.r2, r'.r3⟩, g')) := by
  have hscan : smc_handler_scan (pre ++ e :: post) fuel g a0 a1 a2 a3 a4 a5 a6 a7 p r =
      some (⟨if rc = 0 then r'.r0 else if 0 ≤ rc then rc.toNat else 2 ^ 64 - rc.natAbs,
             r'.r1, r'.r2, r'.r3⟩, g') := by
    rw [smc_handler_scan_hit pre post e fuel g g' a0 a1 a2 a3 a4 a5 a6 a7 p r r' rc hpre he hfn,
      u64_of_int_sign_extend rc hlo hhi]
  have hdef : ∀ r0 : Rets, smc_handler fuel g a0 a1 a2 a3 a4 a5 a6 a7 non_null r0 =
      smc_handler_scan registry fuel g a0 a1 a2 a3 a4 a5 a6 a7 non_null
        ⟨SMC_ERR_UNKNOWN_FID, 0, 0, 0⟩ := by
    intro r0
    unfold smc_handler
    simp only [non_null_any_null, Bool.false_eq_true, if_false]
  refine ⟨hscan, hdef, ?_⟩
  intro hreg hp hr r0
  rw [hdef r0, ← hreg, ← hp, ← hr]
  exact hscan

theorem smc_handler_error_precedence_witness :
    smc_handler_scan sample_registry 0 boot_globals 0x84000010 1 2 3 4 5 6 7 non_null
        ⟨40, 41, 42, 43⟩ = some (⟨2 ^ 64 - 5, 8, 42, 43⟩, boot_globals)
    ∧ smc_handler_scan sample_registry 0 boot_globals 0x84000011 1 2 3 4 5 6 7 non_null
        ⟨40, 41, 42, 43⟩ = some (⟨9, 41, 42, 43⟩, boot_globals)
    ∧ smc_handler 0 boot_globals FID_MATH 99 2 3 4 5 6 7 non_null ⟨40, 41, 42, 43⟩ =
        some (⟨2 ^ 64 - 2, 0, 0, 0⟩, boot_globals) :=
  ⟨((smc_handler_error_precedence [⟨FID_ECHO, local_service svc_echo, "echo"⟩]
      [⟨0x84000011, status_nine_service, "status_nine"⟩]
      ⟨0x84000010, mismatch_service, "mismatch"⟩ 0 boot_globals boot_globals
      0x84000010 1 2 3 4 5 6 7 non_null ⟨40, 41, 42, 43⟩ ⟨7, 8, 42, 43⟩ (-5)
      (by simp [FID_ECHO]) rfl (by decide) (by decide) rfl).1).trans (by rfl),
   ((smc_handler_error_precedence
      [⟨FID_ECHO, local_service svc_echo, "echo"⟩, ⟨0x84000010, mismatch_service, "mismatch"⟩]
      [] ⟨0x84000011, status_nine_service, "status_nine"⟩ 0 boot_globals boot_globals
      0x84000011 1 2 3 4 5 6 7 non_null ⟨40, 41, 42, 43⟩ ⟨9, 41, 42, 43⟩ 0
      (by simp [FID_ECHO]) rfl (by decide) (by decide) rfl).1).trans (by rfl),
   ((smc_handler_error_precedence [⟨FID_ECHO, local_service svc_echo, "echo"⟩]
      [⟨FID_FORWARD_EXT, svc_forward_external, "forward_external"⟩]
      ⟨FID_MATH, local_service svc_math, "math"⟩ 0 boot_globals boot_globals
      FID_MATH 99 2 3 4 5 6 7 non_null ⟨SMC_ERR_UNKNOWN_FID, 0, 0, 0⟩
      ⟨SMC_ERR_INVALID_ARGS, 0, 0, 0⟩ (-2)
      (by simp [FID_ECHO, FID_MATH]) rfl (by decide) (by decide) (by rfl)).2.2 rfl rfl rfl
      ⟨40, 41, 42, 43⟩).trans (by rfl)⟩

/-! ## Status codes -/

/-- C3 as stated fails: the six status codes are not pairwise distinct, because
`SMC_DENIED` and `SMC_ERR_UNKNOWN_FID` are the same 64-bit value. -/
theorem status_codes_not_pairwise_distinct :
    ¬ List.Pairwise (fun a b : Nat => a ≠ b)
      [SMC_OK, SMC_ERR_UNKNOWN_FID, SMC_ERR_INVALID_ARGS, SMC_ERR_INTERNAL, SMC_ERR_BUSY,
       SMC_DENIED] := by
  decide

/-- C3, amended: the five router codes OK, UNKNOWN_FID, INVALID_ARGS, INTERNAL
and BUSY are pairwise distinct 64-bit values; the DENIED sentinel differs from
OK, INVALID_ARGS, INTERNAL and BUSY, and is the same value as UNKNOWN_FID. -/
theorem status_codes_distinct_up_to_denied :
    List.Pairwise (fun a b : Nat => a ≠ b)
      [SMC_OK, SMC_ERR_UNKNOWN_FID, SMC_ERR_INVALID_ARGS, SMC_ERR_INTERNAL, SMC_ERR_BUSY]
    ∧ (∀ c ∈ [SMC_OK, SMC_ERR_UNKNOWN_FID, SMC_ERR_INVALID_ARGS, SMC_ERR_INTERNAL,
        SMC_ERR_BUSY, SMC_DENIED], c < 2 ^ 64)
    ∧ SMC_DENIED ≠ SMC_OK ∧ SMC_DENIED ≠ SMC_ERR_INVALID_ARGS
    ∧ SMC_DENIED ≠ SMC_ERR_INTERNAL ∧ SMC_DENIED ≠ SMC_ERR_BUSY
    ∧ SMC_DENIED = SMC_ERR_UNKNOWN_FID := by
  decide

/-! ## Region Validator -/

/-- C4: for 64-bit `addr` and `size`, `is_valid_tee_range` answers 1 exactly
when `size > 0`, `addr ≥ TEE_BASE`, `addr + size` does not wrap and
`addr + size ≤ TEE_BASE + TEE_SIZE`, that is when `0 < size` and
`addr + size ≤ 2^32`; it answers 0 otherwise. -/
theorem is_valid_tee_range_iff (addr size : Nat) (ha : addr < 2 ^ 64) (hs : size < 2 ^ 64) :
    (is_valid_tee_range addr size = 1 ↔
      (size > 0 ∧ addr ≥ TEE_BASE ∧ addr + size < 2 ^ 64 ∧ addr + size ≤ TEE_BASE + TEE_SIZE))
    ∧ (is_valid_tee_range addr size = 1 ↔ (0 < size ∧ addr + size ≤ 2 ^ 32))
    ∧ (is_valid_tee_range addr size ≠ 1 → is_valid_tee_range addr size = 0)
    ∧ is_valid_tee_range TEE_BASE 4 = 1
    ∧ is_valid_tee_range (TEE_BASE + TEE_SIZE - 4) 4 = 1
    ∧ is_valid_tee_range (TEE_BASE + TEE_SIZE - 4) 5 = 0
    ∧ is_valid_tee_range (2 ^ 64 - 4) 8 = 0 := by
  refine ⟨?_, ?_, ?_, by decide, by decide, by decide, by decide⟩ <;>
    unfold is_valid_tee_range add64 TEE_BASE TEE_SIZE <;> simp only [] <;> split_ifs <;>
    simp only [false_iff, true_iff, eq_self_iff_true, Nat.zero_ne_one, ne_eq, not_true_eq_false,
      not_false_eq_true, false_implies, true_implies, implies_true] <;> omega

theorem is_valid_tee_range_iff_witness :
    is_valid_tee_range 0xFFFFFFF0 16 = 1 ∧ is_valid_tee_range 0xFFFFFFF0 17 = 0 :=
  ⟨((is_valid_tee_range_iff 0xFFFFFFF0 16 (by decide) (by decide)).2.1).2 (by decide),
   by decide⟩

/-- C5, evaluated where it fails: at `addr = 0xFFFFFFFFFFFFFFFC` the sum
`addr + 4` wraps to 0, so `inRegion(addr, 4, Secure)` is false and
`is_valid_tee_range` answers 0, yet `is_secure_addr` answers 1; `secure_read32`
then performs the load instead of returning 0 and `secure_write32` performs the
store. The two checks also disagree at size 0. -/
theorem secure_accessors_accept_wrapped_range :
    ¬ inRegion 0xFFFFFFFFFFFFFFFC 4 TEE_BASE TEE_SIZE
    ∧ is_valid_tee_range 0xFFFFFFFFFFFFFFFC 4 = 0
    ∧ is_secure_addr 0xFFFFFFFFFFFFFFFC 4 = 1
    ∧ secure_read32 (fun _ => 0xAB) 0xFFFFFFFFFFFFFFFC = 0xABABABAB
    ∧ secure_write32 (fun _ => 0) 0xFFFFFFFFFFFFFFFC 0x11223344 0xFFFFFFFFFFFFFFFC = 0x44
    ∧ secure_write32 (fun _ => 0) 0xFFFFFFFFFFFFFFFC 0x11223344 0xFFFFFFFFFFFFFFFF = 0x11
    ∧ is_valid_tee_range 0 0 = 0
    ∧ is_secure_addr 0 0 = 1 := by
  decide

/-! ## Shared Forwarding Channel -/

/-- The command buffer lies in the Secure region. -/
theorem shared_buf_in_tee : is_valid_tee_range SHARED_BUF_ADDR sizeof_smc_shared_cmd = 1 := by
  decide

/-- C6, evaluated where it fails. With the default handler registered and the
lock free, the call `(FID_FORWARD_EXT, 0, 0, ...)` returns
`(INVALID_ARGS, 31, 32, 33)` from one buffer content and
`(INVALID_ARGS, 51, 52, 53)` from another: r1..r3 are the old contents of
`results[0..2]`. In a run from reset, the same call returns
`(INVALID_ARGS, 0, 0, 0)` right after `smc_services_init`, and
`(INVALID_ARGS, 6, 4, 5)` when the call `(FID_FORWARD_EXT, 0x10, 1, 2, 3, 4, 5, 0)`
came before it, whose results were `(OK, 6, 4, 5)`. -/
theorem forward_leaks_previous_results :
    stale_a.spin_lock_val = 0 ∧ stale_b.spin_lock_val = 0
    ∧ (smc_handler 1 stale_a FID_FORWARD_EXT 0 0 0 0 0 0 0 non_null ⟨0, 0, 0, 0⟩).map Prod.fst
        = some ⟨SMC_ERR_INVALID_ARGS, 31, 32, 33⟩
    ∧ (smc_handler 1 stale_b FID_FORWARD_EXT 0 0 0 0 0 0 0 non_null ⟨0, 0, 0, 0⟩).map Prod.fst
        = some ⟨SMC_ERR_INVALID_ARGS, 51, 52, 53⟩
    ∧ (smc_handler 1 ready_globals FID_FORWARD_EXT 0 0 0 0 0 0 0 non_null
        ⟨0, 0, 0, 0⟩).map Prod.fst
        = some ⟨SMC_ERR_INVALID_ARGS, 0, 0, 0⟩
    ∧ (smc_handler 1 ready_globals FID_FORWARD_EXT 0x10 1 2 3 4 5 0 non_null
        ⟨0, 0, 0, 0⟩).map Prod.fst
        = some ⟨SMC_OK, 6, 4, 5⟩
    ∧ ((smc_handler 1 ready_globals FID_FORWARD_EXT 0x10 1 2 3 4 5 0 non_null ⟨0, 0, 0, 0⟩).bind
        (fun first => smc_handler 1 first.2 FID_FORWARD_EXT 0 0 0 0 0 0 0 non_null
          ⟨0, 0, 0, 0⟩)).map Prod.fst
        = some ⟨SMC_ERR_INVALID_ARGS, 6, 4, 5⟩ := by
  decide

/-- The registry entry of the forwarding service. -/
theorem forward_entry_mem :
    (⟨FID_FORWARD_EXT, svc_forward_external, "forward_external"⟩ : smc_entry) ∈ registry := by
  simp [registry]

/-- Forwarding with a free lock and no handler: the buffer is stamped, the
lock is released, and the service reports INTERNAL. -/
theorem svc_forward_external_no_handler (fuel : Nat) (g : Globals)
    (a0 a1 a2 a3 a4 a5 a6 a7 : Nat) (r : Rets)
    (hl : g.spin_lock_val = 0) (hh : g.external_service_handler = none) :
    svc_forward_external (fuel + 1) g a0 a1 a2 a3 a4 a5 a6 a7 non_null r =
      some (-3, { r with r0 := SMC_ERR_INTERNAL },
        { g with
          shared_cmd :=
            { g.shared_cmd with
              magic := 0x534D4353, version := 1, fid := a0,
              args0 := a0, args1 := a1, args2 := a2, args3 := a3,
              args4 := a4, args5 := a5, args6 := a6, args7 := a7 },
          spin_lock_val := 0 }) := by
  unfold svc_forward_external
  simp only [non_null_any_null, Bool.false_eq_true, if_false, hl, spin_lock_free,
    shared_buf_in_tee, one_ne_zero, hh, spin_unlock_one, int_of_u64_internal]
  rfl

/-- C7: with no handler registered and the lock free on entry, dispatching
`FID_FORWARD_EXT` returns (for any positive fuel) `r0 = INTERNAL =
0xFFFFFFFFFFFFFFFD`, `r1 = r2 = r3 = 0`, in a state whose lock is free again
and whose handler slot is still empty; a second identical call from that state
returns the same result instead of spinning. -/
theorem forward_without_handler (fuel : Nat) (g : Globals)
    (a1 a2 a3 a4 a5 a6 a7 : Nat) (r : Rets)
    (hl : g.spin_lock_val = 0) (hh : g.external_service_handler = none) :
    ∃ g' : Globals,
      smc_handler (fuel + 1) g FID_FORWARD_EXT a1 a2 a3 a4 a5 a6 a7 non_null r =
        some (⟨0xFFFFFFFFFFFFFFFD, 0, 0, 0⟩, g')
      ∧ g'.spin_lock_val = 0
      ∧ g'.external_service_handler = none
      ∧ ∃ g'' : Globals,
          smc_handler (fuel + 1) g' FID_FORWARD_EXT a1 a2 a3 a4 a5 a6 a7 non_null r =
            some (⟨0xFFFFFFFFFFFFFFFD, 0, 0, 0⟩, g'')
          ∧ g''.spin_lock_val = 0 := by
  have key : ∀ x : Globals, x.spin_lock_val = 0 → x.external_service_handler = none →
      ∃ x' : Globals,
        smc_handler (fuel + 1) x FID_FORWARD_EXT a1 a2 a3 a4 a5 a6 a7 non_null r =
          some (⟨0xFFFFFFFFFFFFFFFD, 0, 0, 0⟩, x')
        ∧ x'.spin_lock_val = 0 ∧ x'.external_service_handler = none := by
    intro x hxl hxh
    have hfn := svc_forward_external_no_handler fuel x FID_FORWARD_EXT a1 a2 a3 a4 a5 a6 a7
      ⟨SMC_ERR_UNKNOWN_FID, 0, 0, 0⟩ hxl hxh
    have hhit := smc_handler_hit ⟨FID_FORWARD_EXT, svc_forward_external, "forward_external"⟩
      forward_entry_mem (fuel + 1) x _ a1 a2 a3 a4 a5 a6 a7 r _ (-3) hfn
    rw [hhit]
    exact ⟨_, rfl, rfl, hxh⟩
  obtain ⟨g', h1, h2, h3⟩ := key g hl hh
  obtain ⟨g'', h4, h5, _⟩ := key g' h2 h3
  exact ⟨g', h1, h2, h3, g'', h4, h5⟩

theorem forward_without_handler_witness :
    ∃ g' : Globals,
      smc_handler 1 boot_globals FID_FORWARD_EXT 1 2 3 4 5 6 7 non_null ⟨40, 41, 42, 43⟩ =
        some (⟨0xFFFFFFFFFFFFFFFD, 0, 0, 0⟩, g')
      ∧ g'.spin_lock_val = 0
      ∧ g'.external_service_handler = none
      ∧ ∃ g'' : Globals,
          smc_handler 1 g' FID_FORWARD_EXT 1 2 3 4 5 6 7 non_null ⟨40, 41, 42, 43⟩ =
            some (⟨0xFFFFFFFFFFFFFFFD, 0, 0, 0⟩, g'')
          ∧ g''.spin_lock_val = 0 :=
  forward_without_handler 0 boot_globals 1 2 3 4 5 6 7 ⟨40, 41, 42, 43⟩ rfl rfl

/-- Forwarding with a free lock and a registered handler: the buffer is
stamped, the handler runs once on the stamped arguments and on the status and
result cells of the buffer, its return code is dropped, the cells are read
back, and the lock is released. -/
theorem svc_forward_external_handler (fuel : Nat) (g : Globals) (h : smc_service_t)
    (a0 a1 a2 a3 a4 a5 a6 a7 : Nat) (r : Rets)
    (hl : g.spin_lock_val = 0) (hh : g.external_service_handler = some h) :
    svc_forward_external (fuel + 1) g a0 a1 a2 a3 a4 a5 a6 a7 non_null r =
      some (0,
        (h a0 a1 a2 a3 a4 a5 a6 a7 non_null
          ⟨g.shared_cmd.status, g.shared_cmd.results0, g.shared_cmd.results1,
            g.shared_cmd.results2⟩).2,
        { g with
          shared_cmd :=
            { g.shared_cmd with
              magic := 0x534D4353, version := 1, fid := a0,
              args0 := a0, args1 := a1, args2 := a2, args3 := a3,
              args4 := a4, args5 := a5, args6 := a6, args7 := a7,
              status := (h a0 a1 a2 a3 a4 a5 a6 a7 non_null
                ⟨g.shared_cmd.status, g.shared_cmd.results0, g.shared_cmd.results1,
                  g.shared_cmd.results2⟩).2.r0,
              results0 := (h a0 a1 a2 a3 a4 a5 a6 a7 non_null
                ⟨g.shared_cmd.status, g.shared_cmd.results0, g.shared_cmd.results1,
                  g.shared_cmd.results2⟩).2.r1,
              results1 := (h a0 a1 a2 a3 a4 a5 a6 a7 non_null
                ⟨g.shared_cmd.status, g.shared_cmd.results0, g.shared_cmd.results1,
                  g.shared_cmd.results2⟩).2.r2,
              results2 := (h a0 a1 a2 a3 a4 a5 a6 a7 non_null
                ⟨g.shared_cmd.status, g.shared_cmd.results0, g.shared_cmd.results1,
                  g.shared_cmd.results2⟩).2.r3 },
          spin_lock_val := 0 }) := by
  unfold svc_forward_external
  simp only [non_null_any_null, Bool.false_eq_true, if_false, hl, spin_lock_free,
    shared_buf_in_tee, one_ne_zero, hh, spin_unlock_one]
  rfl

/-- Initialisation keeps the lock word and installs the default handler. -/
theorem smc_services_init_lock_handler (g : Globals) :
    (smc_services_init g).spin_lock_val = g.spin_lock_val
    ∧ (smc_services_init g).external_service_handler = some example_external_service := by
  simp [smc_services_init, register_external_service, shared_buf_in_tee]

/-- The registry entry of the echo service. -/
theorem echo_entry_mem : (⟨FID_ECHO, local_service svc_echo, "echo"⟩ : smc_entry) ∈ registry := by
  simp [registry]

/-- The registry entry of the math service. -/
theorem math_entry_mem : (⟨FID_MATH, local_service svc_math, "math"⟩ : smc_entry) ∈ registry := by
  simp [registry]

/-- C9: echo. For every `a0..a7` and every prior cell content, `svc_echo` with
non-null outputs returns 0 and sets `r0 = OK`, `r1 = a0`, `r2 = a1`, `r3 = a2`;
the outcome does not depend on `a3..a7` (nor on the prior cells);
`echo(1,2,3,...)` gives `(OK,1,2,3)`; and every call the router sends to echo
returns `(OK, 0x84000001, a1, a2)` and leaves the forwarding state alone. -/
theorem svc_echo_passthrough (fuel : Nat) (g : Globals)
    (a0 a1 a2 a3 a4 a5 a6 a7 b3 b4 b5 b6 b7 : Nat) (r s : Rets) :
    svc_echo a0 a1 a2 a3 a4 a5 a6 a7 non_null r = (0, ⟨SMC_OK, a0, a1, a2⟩)
    ∧ SMC_OK = 0
    ∧ svc_echo a0 a1 a2 b3 b4 b5 b6 b7 non_null s = svc_echo a0 a1 a2 a3 a4 a5 a6 a7 non_null r
    ∧ svc_echo 1 2 3 a3 a4 a5 a6 a7 non_null r = (0, ⟨0, 1, 2, 3⟩)
    ∧ smc_handler fuel g 0x84000001 a1 a2 a3 a4 a5 a6 a7 non_null r =
        some (⟨0, 0x84000001, a1, a2⟩, g) := by
  refine ⟨rfl, rfl, rfl, rfl, ?_⟩
  have hhit := smc_handler_hit ⟨FID_ECHO, local_service svc_echo, "echo"⟩ echo_entry_mem
    fuel g g a1 a2 a3 a4 a5 a6 a7 r ⟨SMC_OK, FID_ECHO, a1, a2⟩ 0 rfl
  exact hhit

/-- C10: math, valid opcodes. For every `a0`, `a2..a7` and prior cells,
`svc_math` returns 0 with `r0 = OK`, `r2 = r3 = 0`, and
`r1 = (a2+a3+a4+a5) mod 2^64` for opcode 0, `r1 = (a2*a3) mod 2^64` for opcode
1, `r1 = a2 xor a3 xor a4 xor a5` for opcode 2; operands (1,2,3,4) give 10,
(6,7) give 42, (1,2,4,8) give 15, and opcode 0 on (2^64-1, 1, 0, 0) gives 0. -/
theorem svc_math_valid_opcodes (a0 a2 a3 a4 a5 a6 a7 : Nat) (r : Rets) :
    svc_math a0 0 a2 a3 a4 a5 a6 a7 non_null r = (0, ⟨0, (a2 + a3 + a4 + a5) % 2 ^ 64, 0, 0⟩)
    ∧ svc_math a0 1 a2 a3 a4 a5 a6 a7 non_null r = (0, ⟨0, (a2 * a3) % 2 ^ 64, 0, 0⟩)
    ∧ svc_math a0 2 a2 a3 a4 a5 a6 a7 non_null r = (0, ⟨0, a2 ^^^ a3 ^^^ a4 ^^^ a5, 0, 0⟩)
    ∧ SMC_OK = 0
    ∧ svc_math a0 0 1 2 3 4 a6 a7 non_null r = (0, ⟨0, 10, 0, 0⟩)
    ∧ svc_math a0 1 6 7 a4 a5 a6 a7 non_null r = (0, ⟨0, 42, 0, 0⟩)
    ∧ svc_math a0 2 1 2 4 8 a6 a7 non_null r = (0, ⟨0, 15, 0, 0⟩)
    ∧ svc_math a0 0 (2 ^ 64 - 1) 1 0 0 a6 a7 non_null r = (0, ⟨0, 0, 0, 0⟩) := by
  have hsum : ∀ w x y z : Nat,
      add64 (add64 (add64 w x) y) z = (w + x + y + z) % 2 ^ 64 := by
    intro w x y z
    unfold add64
    omega
  refine ⟨?_, ?_, ?_, rfl, ?_, ?_, ?_, ?_⟩
  · simp [svc_math, non_null_any_null, hsum, SMC_OK]
  · simp [svc_math, non_null_any_null, mul64, SMC_OK]
  · simp [svc_math, non_null_any_null, SMC_OK]
  · simp [svc_math, non_null_any_null, hsum, SMC_OK]
  · simp [svc_math, non_null_any_null, mul64, SMC_OK]
  · simp [svc_math, non_null_any_null, SMC_OK]
  · simp [svc_math, non_null_any_null, hsum, SMC_OK]

/-- C11: math, invalid opcode. For every `a1` outside {0, 1, 2} and every other
argument, `svc_math` sets `r0 = INVALID_ARGS = 0xFFFFFFFFFFFFFFFE` and
`r2 = r3 = 0`, leaves r1 alone, and returns an `int` whose conversion back to
64 bits is that same value; dispatching `(FID_MATH, a1, ...)` through
`smc_handler` yields exactly `(INVALID_ARGS, 0, 0, 0)` and leaves the state
alone. -/
theorem svc_math_invalid_opcode (fuel : Nat) (g : Globals)
    (a0 a1 a2 a3 a4 a5 a6 a7 : Nat) (r : Rets)
    (h0 : a1 ≠ 0) (h1 : a1 ≠ 1) (h2 : a1 ≠ 2) :
    svc_math a0 a1 a2 a3 a4 a5 a6 a7 non_null r = (-2, ⟨0xFFFFFFFFFFFFFFFE, r.r1, 0, 0⟩)
    ∧ SMC_ERR_INVALID_ARGS = 0xFFFFFFFFFFFFFFFE
    ∧ u64_of_int (svc_math a0 a1 a2 a3 a4 a5 a6 a7 non_null r).1 = SMC_ERR_INVALID_ARGS
    ∧ smc_handler fuel g FID_MATH a1 a2 a3 a4 a5 a6 a7 non_null r =
        some (⟨0xFFFFFFFFFFFFFFFE, 0, 0, 0⟩, g) := by
  have hm : ∀ x : Nat, ∀ s : Rets,
      svc_math x a1 a2 a3 a4 a5 a6 a7 non_null s = (-2, ⟨0xFFFFFFFFFFFFFFFE, s.r1, 0, 0⟩) := by
    intro x s
    have hi : int_of_u64 18446744073709551614 = -2 := by decide
    simp [svc_math, non_null_any_null, h0, h1, h2, hi, SMC_ERR_INVALID_ARGS]
  refine ⟨hm a0 r, by decide, ?_, ?_⟩
  · rw [hm a0 r]
    show u64_of_int (-2) = SMC_ERR_INVALID_ARGS
    decide
  · have hfn : (⟨FID_MATH, local_service svc_math, "math"⟩ : smc_entry).fn fuel g FID_MATH
        a1 a2 a3 a4 a5 a6 a7 non_null ⟨SMC_ERR_UNKNOWN_FID, 0, 0, 0⟩ =
        some (-2, ⟨0xFFFFFFFFFFFFFFFE, 0, 0, 0⟩, g) := by
      simp only [local_service, hm]
    have hhit := smc_handler_hit ⟨FID_MATH, local_service svc_math, "math"⟩ math_entry_mem
      fuel g g a1 a2 a3 a4 a5 a6 a7 r _ (-2) hfn
    rw [hhit]
    rfl

theorem svc_math_invalid_opcode_witness :
    svc_math 7 99 1 2 3 4 5 6 non_null ⟨40, 41, 42, 43⟩ = (-2, ⟨0xFFFFFFFFFFFFFFFE, 41, 0, 0⟩)
    ∧ SMC_ERR_INVALID_ARGS = 0xFFFFFFFFFFFFFFFE
    ∧ u64_of_int (svc_math 7 99 1 2 3 4 5 6 non_null ⟨40, 41, 42, 43⟩).1 = SMC_ERR_INVALID_ARGS
    ∧ smc_handler 0 boot_globals FID_MATH 99 1 2 3 4 5 6 non_null ⟨40, 41, 42, 43⟩ =
        some (⟨0xFFFFFFFFFFFFFFFE, 0, 0, 0⟩, boot_globals) :=
  svc_math_invalid_opcode 0 boot_globals 7 99 1 2 3 4 5 6 ⟨40, 41, 42, 43⟩
    (by decide) (by decide) (by decide)

/-! ## Trap Policy Gate -/

/-- The exception-class field of a syndrome value, by arithmetic. -/
theorem exception_class_eq (esr : Nat) : (esr >>> 26) &&& 0x3F = esr / 2 ^ 26 % 64 := by
  rw [Nat.shiftRight_eq_div_pow]
  exact Nat.and_pow_two_sub_one_eq_mod (esr / 2 ^ 26) 6

/-- C12: the Trap Policy Gate as a function of the syndrome value `esr` and of
the prior x0. When the exception-class field `(esr >> 26) & 0x3F` is 0x16 the
register becomes 0xFFFFFFFFFFFFFFFF whatever it held and whatever the other bits
of `esr` are; for any other class it is left as it was. The class field is
`esr / 2^26 mod 64`. -/
theorem deny_smc_if_detected_gate (esr x0 : Nat) :
    ((esr >>> 26) &&& 0x3F = 0x16 → deny_smc_if_detected esr x0 = 0xFFFFFFFFFFFFFFFF)
    ∧ ((esr >>> 26) &&& 0x3F ≠ 0x16 → deny_smc_if_detected esr x0 = x0)
    ∧ (esr / 2 ^ 26 % 64 = 0x16 → deny_smc_if_detected esr x0 = 0xFFFFFFFFFFFFFFFF)
    ∧ (esr / 2 ^ 26 % 64 ≠ 0x16 → deny_smc_if_detected esr x0 = x0) := by
  have hec : ((esr >>> 26) &&& 0x3F) % 2 ^ 32 = esr / 2 ^ 26 % 64 := by
    rw [exception_class_eq]
    omega
  rw [exception_class_eq]
  unfold deny_smc_if_detected
  simp only [hec, write_x0, SMC_DENIED]
  refine ⟨?_, ?_, ?_, ?_⟩ <;> intro h <;> simp only [Nat.reducePow] at h ⊢ <;> simp [h]

theorem deny_smc_if_detected_gate_witness :
    deny_smc_if_detected 0x5A000000 0 = 0xFFFFFFFFFFFFFFFF
    ∧ deny_smc_if_detected 0x5BFFFFFF 0x1234 = 0xFFFFFFFFFFFFFFFF
    ∧ deny_smc_if_detected 0x5E000000 0x1234 = 0x1234
    ∧ deny_smc_if_detected 0x100000005A000000 0x1234 = 0xFFFFFFFFFFFFFFFF :=
  ⟨(deny_smc_if_detected_gate 0x5A000000 0).1 (by decide),
   (deny_smc_if_detected_gate 0x5BFFFFFF 0x1234).2.2.1 (by decide),
   (deny_smc_if_detected_gate 0x5E000000 0x1234).2.1 (by decide),
   (deny_smc_if_detected_gate 0x100000005A000000 0x1234).1 (by decide)⟩

/-! ## Memory regions -/

/-- C13 as stated fails: the UART address 0xFE201000 lies in the Secure region
and in the Peripheral region, and both the secure accessor check
`is_secure_addr(addr, 4)` and the peripheral accessor check accept it (both
accessors perform the access). -/
theorem secure_and_peripheral_overlap :
    (TEE_BASE ≤ 0xFE201000 ∧ 0xFE201000 < TEE_BASE + TEE_SIZE)
    ∧ (PERIPH_BASE ≤ 0xFE201000 ∧ 0xFE201000 < PERIPH_BASE + PERIPH_SIZE)
    ∧ is_secure_addr 0xFE201000 4 = 1
    ∧ secure_read32 (fun _ => 0xAB) 0xFE201000 = 0xABABABAB
    ∧ secure_periph_read (fun _ => 0xAB) 0xFE201000 = 0xABABABAB := by
  decide

/-- C13, amended: the Secure region `[TEE_BASE, TEE_BASE+TEE_SIZE)` and the
Non-secure region `[NS_BASE, NS_BASE+NS_SIZE)` are disjoint, the Non-secure and
the Peripheral region are disjoint, and the Peripheral region
`[PERIPH_BASE, PERIPH_BASE+PERIPH_SIZE)` lies inside the Secure region and ends
where it ends; every address the peripheral check accepts whose 4-byte access
ends by `2^32` is accepted by `is_secure_addr(addr, 4)` too. -/
theorem regions_secure_contains_peripheral (addr : Nat) :
    ¬ ((TEE_BASE ≤ addr ∧ addr < TEE_BASE + TEE_SIZE)
        ∧ (NS_BASE ≤ addr ∧ addr < NS_BASE + NS_SIZE))
    ∧ ¬ ((NS_BASE ≤ addr ∧ addr < NS_BASE + NS_SIZE)
        ∧ (PERIPH_BASE ≤ addr ∧ addr < PERIPH_BASE + PERIPH_SIZE))
    ∧ ((PERIPH_BASE ≤ addr ∧ addr < PERIPH_BASE + PERIPH_SIZE) →
        (TEE_BASE ≤ addr ∧ addr < TEE_BASE + TEE_SIZE))
    ∧ PERIPH_BASE + PERIPH_SIZE = TEE_BASE + TEE_SIZE
    ∧ PROTECT_PERIPH_BASE = PERIPH_BASE
    ∧ ((PERIPH_BASE ≤ addr ∧ addr < PERIPH_BASE + PERIPH_SIZE) → addr + 4 ≤ 2 ^ 32 →
        is_secure_addr addr 4 = 1) := by
  unfold is_secure_addr add64 TEE_BASE TEE_SIZE NS_BASE NS_SIZE PERIPH_BASE PERIPH_SIZE
    PROTECT_PERIPH_BASE
  refine ⟨by omega, by omega, by omega, by decide, by decide, ?_⟩
  intro h1 h2
  rw [if_pos]
  constructor
  · omega
  · omega

theorem regions_secure_contains_peripheral_witness :
    (TEE_BASE ≤ 0xFE201000 ∧ 0xFE201000 < TEE_BASE + TEE_SIZE)
    ∧ is_secure_addr 0xFE201000 4 = 1 :=
  ⟨(regions_secure_contains_peripheral 0xFE201000).2.2.1 (by decide),
   (regions_secure_contains_peripheral 0xFE201000).2.2.2.2.2 (by decide) (by decide)⟩

/-- C14, evaluated where it fails: at `addr = 0xFFFFFFFD` the 4-byte access
ends at 0x100000001, one byte past the Peripheral region, so
`inRegion(addr, 4, Peripheral)` is false; `secure_periph_read` still performs
the load (its top byte comes from address 0x100000000, the first byte of the
Non-secure region) and `secure_periph_write` still performs the store (it
changes that byte). The secure accessor check rejects the same access. -/
theorem secure_periph_accepts_straddling_access :
    ¬ inRegion 0xFFFFFFFD 4 PERIPH_BASE PERIPH_SIZE
    ∧ secure_periph_read (fun a => if a = 0x100000000 then 0x77 else 0) 0xFFFFFFFD = 0x77000000
    ∧ secure_periph_write (fun _ => 0) 0xFFFFFFFD 0x11223344 0x100000000 = 0x11
    ∧ NS_BASE = 0x100000000
    ∧ is_secure_addr 0xFFFFFFFD 4 = 0 := by
  decide

/-! ## Whole-dispatcher facts -/

/-- Four non-null pointers are the record `non_null`. -/
theorem eq_non_null_of_any_null (p : RetPtrs) (h : p.any_null = false) : p = non_null := by
  cases p with
  | mk n0 n1 n2 n3 =>
    simp only [RetPtrs.any_null, Bool.or_eq_false_iff] at h
    obtain ⟨⟨⟨h0, h1⟩, h2⟩, h3⟩ := h
    simp [non_null, h0, h1, h2, h3]

/-- The router on an unregistered FID. -/
theorem smc_handler_miss (fuel : Nat) (g : Globals) (a0 a1 a2 a3 a4 a5 a6 a7 : Nat) (r : Rets)
    (h1 : a0 ≠ FID_ECHO) (h2 : a0 ≠ FID_MATH) (h3 : a0 ≠ FID_FORWARD_EXT) :
    smc_handler fuel g a0 a1 a2 a3 a4 a5 a6 a7 non_null r =
      some (⟨SMC_ERR_UNKNOWN_FID, 0, 0, 0⟩, g) := by
  have hmiss : ∀ x ∈ registry, x.fid ≠ a0 := by
    intro x hx
    simp only [registry, List.mem_cons, List.mem_singleton, List.not_mem_nil, or_false] at hx
    rcases hx with rfl | rfl | rfl
    · exact fun h => h1 h.symm
    · exact fun h => h2 h.symm
    · exact fun h => h3 h.symm
  unfold smc_handler
  simp only [non_null_any_null, Bool.false_eq_true, if_false]
  exact smc_handler_scan_miss registry fuel g a0 a1 a2 a3 a4 a5 a6 a7 _ _ hmiss

/-- The router on the echo FID. -/
theorem smc_handler_echo (fuel : Nat) (g : Globals) (a1 a2 a3 a4 a5 a6 a7 : Nat) (r : Rets) :
    smc_handler fuel g FID_ECHO a1 a2 a3 a4 a5 a6 a7 non_null r =
      some (⟨0, FID_ECHO, a1, a2⟩, g) :=
  smc_handler_hit ⟨FID_ECHO, local_service svc_echo, "echo"⟩ echo_entry_mem
    fuel g g a1 a2 a3 a4 a5 a6 a7 r ⟨SMC_OK, FID_ECHO, a1, a2⟩ 0 rfl

/-- The two outcomes of the math service on the router's preset cells. -/
theorem svc_math_outcome (a0 a1 a2 a3 a4 a5 a6 a7 : Nat) :
    (∃ v, svc_math a0 a1 a2 a3 a4 a5 a6 a7 non_null ⟨SMC_ERR_UNKNOWN_FID, 0, 0, 0⟩ =
        (0, ⟨0, v, 0, 0⟩))
    ∨ svc_math a0 a1 a2 a3 a4 a5 a6 a7 non_null ⟨SMC_ERR_UNKNOWN_FID, 0, 0, 0⟩ =
        (-2, ⟨SMC_ERR_INVALID_ARGS, 0, 0, 0⟩) := by
  have hi : int_of_u64 SMC_ERR_INVALID_ARGS = -2 := int_of_u64_invalid_args
  unfold svc_math
  simp only [non_null_any_null, Bool.false_eq_true, if_false, hi, SMC_OK]
  by_cases h0 : a1 = 0
  · exact Or.inl ⟨add64 (add64 (add64 a2 a3) a4) a5, by simp [h0]⟩
  · by_cases h1 : a1 = 1
    · exact Or.inl ⟨mul64 a2 a3, by simp [h1]⟩
    · by_cases h2 : a1 = 2
      · exact Or.inl ⟨a2 ^^^ a3 ^^^ a4 ^^^ a5, by simp [h2]⟩
      · exact Or.inr (by simp [h0, h1, h2])

/-- The router on the math FID: OK with a value, or INVALID_ARGS with zeros; the
state is left alone and the cells do not depend on it. -/
theorem smc_handler_math (a1 a2 a3 a4 a5 a6 a7 : Nat) :
    ∃ r' : Rets, (r'.r0 = SMC_OK ∨ r'.r0 = SMC_ERR_INVALID_ARGS)
      ∧ ∀ (fuel : Nat) (g : Globals) (r : Rets),
          smc_handler fuel g FID_MATH a1 a2 a3 a4 a5 a6 a7 non_null r = some (r', g) := by
  rcases svc_math_outcome FID_MATH a1 a2 a3 a4 a5 a6 a7 with ⟨v, hv⟩ | hbad
  · refine ⟨⟨0, v, 0, 0⟩, Or.inl rfl, ?_⟩
    intro fuel g r
    have hfn : (⟨FID_MATH, local_service svc_math, "math"⟩ : smc_entry).fn fuel g FID_MATH
        a1 a2 a3 a4 a5 a6 a7 non_null ⟨SMC_ERR_UNKNOWN_FID, 0, 0, 0⟩ =
        some (0, ⟨0, v, 0, 0⟩, g) := by
      simp only [local_service, hv]
    exact smc_handler_hit ⟨FID_MATH, local_service svc_math, "math"⟩ math_entry_mem
      fuel g g a1 a2 a3 a4 a5 a6 a7 r _ 0 hfn
  · refine ⟨⟨SMC_ERR_INVALID_ARGS, 0, 0, 0⟩, Or.inr rfl, ?_⟩
    intro fuel g r
    have hfn : (⟨FID_MATH, local_service svc_math, "math"⟩ : smc_entry).fn fuel g FID_MATH
        a1 a2 a3 a4 a5 a6 a7 non_null ⟨SMC_ERR_UNKNOWN_FID, 0, 0, 0⟩ =
        some (-2, ⟨SMC_ERR_INVALID_ARGS, 0, 0, 0⟩, g) := by
      simp only [local_service, hbad]
    exact smc_handler_hit ⟨FID_MATH, local_service svc_math, "math"⟩ math_entry_mem
      fuel g g a1 a2 a3 a4 a5 a6 a7 r _ (-2) hfn

/-- A registry scan whose matching service does not return does not return. -/
theorem smc_handler_scan_hit_none (pre post : List smc_entry) (e : smc_entry)
    (fuel : Nat) (g : Globals) (a0 a1 a2 a3 a4 a5 a6 a7 : Nat) (p : RetPtrs) (r : Rets)
    (hpre : ∀ x ∈ pre, x.fid ≠ a0) (he : e.fid = a0)
    (hfn : e.fn fuel g a0 a1 a2 a3 a4 a5 a6 a7 p r = none) :
    smc_handler_scan (pre ++ e :: post) fuel g a0 a1 a2 a3 a4 a5 a6 a7 p r = none := by
  induction pre with
  | nil => simp only [List.nil_append, smc_handler_scan, he, if_true, hfn]
  | cons x xs ih =>
    have hx : x.fid ≠ a0 := hpre x (List.mem_cons_self _ _)
    simp only [List.cons_append, smc_handler_scan, hx, if_false]
    exact ih (fun y hy => hpre y (List.mem_cons_of_mem _ hy))

/-- The router on the forwarding FID, read backwards: a call that returned is a
forwarding call that returned, post-processed. -/
theorem smc_handler_forward_inv (fuel : Nat) (g g' : Globals)
    (a1 a2 a3 a4 a5 a6 a7 : Nat) (r r' : Rets)
    (hret : smc_handler fuel g FID_FORWARD_EXT a1 a2 a3 a4 a5 a6 a7 non_null r = some (r', g')) :
    ∃ (rc : Int) (s : Rets),
      svc_forward_external fuel g FID_FORWARD_EXT a1 a2 a3 a4 a5 a6 a7 non_null
        ⟨SMC_ERR_UNKNOWN_FID, 0, 0, 0⟩ = some (rc, s, g')
      ∧ r' = ⟨if rc = 0 then s.r0 else u64_of_int rc, s.r1, s.r2, s.r3⟩ := by
  cases hfn : svc_forward_external fuel g FID_FORWARD_EXT a1 a2 a3 a4 a5 a6 a7 non_null
      ⟨SMC_ERR_UNKNOWN_FID, 0, 0, 0⟩ with
  | none =>
    obtain ⟨pre, post, hsplit, hpre⟩ :=
      registry_split ⟨FID_FORWARD_EXT, svc_forward_external, "forward_external"⟩
        forward_entry_mem
    have hnone : smc_handler fuel g FID_FORWARD_EXT a1 a2 a3 a4 a5 a6 a7 non_null r = none := by
      unfold smc_handler
      simp only [non_null_any_null, Bool.false_eq_true, if_false]
      rw [hsplit]
      exact smc_handler_scan_hit_none pre post _ fuel g FID_FORWARD_EXT a1 a2 a3 a4 a5 a6 a7
        _ _ hpre rfl hfn
    rw [hnone] at hret
    exact absurd hret (by simp)
  | some out =>
    obtain ⟨rc, s, g1⟩ := out
    have hhit := smc_handler_hit ⟨FID_FORWARD_EXT, svc_forward_external, "forward_external"⟩
      forward_entry_mem fuel g g1 a1 a2 a3 a4 a5 a6 a7 r s rc hfn
    rw [hhit] at hret
    simp only [Option.some.injEq, Prod.mk.injEq] at hret
    obtain ⟨hr, hg⟩ := hret
    subst hg
    exact ⟨rc, s, rfl, hr.symm⟩

/-- A forwarding call that returned, whatever the lock word was on entry: the
buffer is stamped, the handler slot is unchanged, and the outcome is INTERNAL
(no handler) or the cells of one handler call with return code 0. -/
theorem svc_forward_external_inv (fuel : Nat) (g g' : Globals)
    (a0 a1 a2 a3 a4 a5 a6 a7 : Nat) (r s : Rets) (rc : Int)
    (hret : svc_forward_external fuel g a0 a1 a2 a3 a4 a5 a6 a7 non_null r = some (rc, s, g')) :
    (g'.shared_cmd.magic = 0x534D4353 ∧ g'.shared_cmd.version = 1 ∧ g'.shared_cmd.fid = a0
      ∧ g'.shared_cmd.args0 = a0 ∧ g'.shared_cmd.args1 = a1 ∧ g'.shared_cmd.args2 = a2
      ∧ g'.shared_cmd.args3 = a3 ∧ g'.shared_cmd.args4 = a4 ∧ g'.shared_cmd.args5 = a5
      ∧ g'.shared_cmd.args6 = a6 ∧ g'.shared_cmd.args7 = a7)
    ∧ g'.external_service_handler = g.external_service_handler
    ∧ ((g.external_service_handler = none ∧ rc = -3 ∧ s = { r with r0 := SMC_ERR_INTERNAL })
      ∨ (∃ h : smc_service_t, g.external_service_handler = some h ∧ rc = 0
          ∧ s = (h a0 a1 a2 a3 a4 a5 a6 a7 non_null
              ⟨g.shared_cmd.status, g.shared_cmd.results0, g.shared_cmd.results1,
                g.shared_cmd.results2⟩).2)) := by
  unfold svc_forward_external at hret
  simp only [non_null_any_null, Bool.false_eq_true, if_false, shared_buf_in_tee, one_ne_zero,
    int_of_u64_internal] at hret
  cases hs : spin_lock fuel g.spin_lock_val with
  | none =>
    rw [hs] at hret
    exact absurd hret (by simp)
  | some held =>
    rw [hs] at hret
    cases hh : g.external_service_handler with
    | none =>
      rw [hh] at hret
      simp only [Option.some.injEq, Prod.mk.injEq] at hret
      obtain ⟨hrc, hsr, hg⟩ := hret
      subst hg
      exact ⟨⟨rfl, rfl, rfl, rfl, rfl, rfl, rfl, rfl, rfl, rfl, rfl⟩, rfl,
        Or.inl ⟨rfl, hrc.symm, hsr.symm⟩⟩
    | some h =>
      rw [hh] at hret
      simp only [Option.some.injEq, Prod.mk.injEq] at hret
      obtain ⟨hrc, hsr, hg⟩ := hret
      subst hg
      exact ⟨⟨rfl, rfl, rfl, rfl, rfl, rfl, rfl, rfl, rfl, rfl, rfl⟩, rfl,
        Or.inr ⟨h, rfl, hrc.symm, hsr.symm⟩⟩

/-- The default external service leaves OK or INVALID_ARGS in the status cell. -/
theorem example_external_service_status (fid a1 p2 p3 p4 p5 p6 p7 : Nat) (c : Rets) :
    (example_external_service fid a1 p2 p3 p4 p5 p6 p7 non_null c).2.r0 = SMC_OK
    ∨ (example_external_service fid a1 p2 p3 p4 p5 p6 p7 non_null c).2.r0 =
        SMC_ERR_INVALID_ARGS := by
  unfold example_external_service
  simp only [non_null_any_null, Bool.false_eq_true, if_false]
  by_cases h : a1 = 0x10
  · exact Or.inl (by simp [h])
  · exact Or.inr (by simp [h])

/-- In the default configuration, a dispatch that returned reports OK for echo,
OK or INVALID_ARGS for math, OK, INVALID_ARGS or INTERNAL for forwarding, and
UNKNOWN_FID for every other FID. -/
theorem smc_handler_default_r0 (fuel : Nat) (g g' : Globals)
    (a0 a1 a2 a3 a4 a5 a6 a7 : Nat) (r r' : Rets)
    (hh : g.external_service_handler = none
      ∨ g.external_service_handler = some example_external_service)
    (hret : smc_handler fuel g a0 a1 a2 a3 a4 a5 a6 a7 non_null r = some (r', g')) :
    ((a0 = FID_ECHO ∨ a0 = FID_MATH ∨ a0 = FID_FORWARD_EXT)
      ∧ (r'.r0 = SMC_OK ∨ r'.r0 = SMC_ERR_INVALID_ARGS ∨ r'.r0 = SMC_ERR_INTERNAL))
    ∨ ((a0 ≠ FID_ECHO ∧ a0 ≠ FID_MATH ∧ a0 ≠ FID_FORWARD_EXT)
      ∧ r'.r0 = SMC_ERR_UNKNOWN_FID) := by
  by_cases h1 : a0 = FID_ECHO
  · subst h1
    rw [smc_handler_echo] at hret
    simp only [Option.some.injEq, Prod.mk.injEq] at hret
    exact Or.inl ⟨Or.inl rfl, Or.inl (by rw [← hret.1]; rfl)⟩
  by_cases h2 : a0 = FID_MATH
  · subst h2
    obtain ⟨m, hm, hall⟩ := smc_handler_math a1 a2 a3 a4 a5 a6 a7
    rw [hall fuel g r] at hret
    simp only [Option.some.injEq, Prod.mk.injEq] at hret
    rw [← hret.1]
    rcases hm with hm | hm
    · exact Or.inl ⟨Or.inr (Or.inl rfl), Or.inl hm⟩
    · exact Or.inl ⟨Or.inr (Or.inl rfl), Or.inr (Or.inl hm)⟩
  by_cases h3 : a0 = FID_FORWARD_EXT
  · subst h3
    obtain ⟨rc, s, hfn, hr'⟩ := smc_handler_forward_inv fuel g g' a1 a2 a3 a4 a5 a6 a7 r r' hret
    obtain ⟨_, _, hcase⟩ := svc_forward_external_inv fuel g g' FID_FORWARD_EXT
      a1 a2 a3 a4 a5 a6 a7 _ s rc hfn
    refine Or.inl ⟨Or.inr (Or.inr rfl), ?_⟩
    rcases hcase with ⟨_, hrc, _⟩ | ⟨h, hsome, hrc, hs⟩
    · subst hrc
      rw [hr']
      have h3 : u64_of_int (-3) = SMC_ERR_INTERNAL := by decide
      exact Or.inr (Or.inr h3)
    · subst hrc
      rw [hr']
      simp only [if_true]
      rcases hh with hnone | hex
      · rw [hnone] at hsome
        exact absurd hsome (by simp)
      · rw [hex] at hsome
        have hhe : example_external_service = h := Option.some.inj hsome
        subst hhe
        rw [hs]
        rcases example_external_service_status FID_FORWARD_EXT a1 a2 a3 a4 a5 a6 a7
          ⟨g.shared_cmd.status, g.shared_cmd.results0, g.shared_cmd.results1,
            g.shared_cmd.results2⟩ with hok | hbad
        · exact Or.inl hok
        · exact Or.inr (Or.inl hbad)
  · rw [smc_handler_miss fuel g a0 a1 a2 a3 a4 a5 a6 a7 r h1 h2 h3] at hret
    simp only [Option.some.injEq, Prod.mk.injEq] at hret
    exact Or.inr ⟨⟨h1, h2, h3⟩, by rw [← hret.1]⟩

/-- With the lock free, every dispatch returns (any positive fuel, any output
pointers, any handler slot), and the lock is free on return. -/
theorem smc_handler_returns (fuel : Nat) (g : Globals)
    (a0 a1 a2 a3 a4 a5 a6 a7 : Nat) (p : RetPtrs) (r : Rets) (hl : g.spin_lock_val = 0) :
    ∃ (r' : Rets) (g' : Globals),
      smc_handler (fuel + 1) g a0 a1 a2 a3 a4 a5 a6 a7 p r = some (r', g')
      ∧ g'.spin_lock_val = 0 := by
  cases hp : p.any_null with
  | true => exact ⟨r, g, by simp [smc_handler, hp], hl⟩
  | false =>
    have hpn := eq_non_null_of_any_null p hp
    subst hpn
    by_cases h1 : a0 = FID_ECHO
    · subst h1
      exact ⟨_, g, smc_handler_echo (fuel + 1) g a1 a2 a3 a4 a5 a6 a7 r, hl⟩
    by_cases h2 : a0 = FID_MATH
    · subst h2
      obtain ⟨m, _, hall⟩ := smc_handler_math a1 a2 a3 a4 a5 a6 a7
      exact ⟨m, g, hall (fuel + 1) g r, hl⟩
    by_cases h3 : a0 = FID_FORWARD_EXT
    · subst h3
      cases hh : g.external_service_handler with
      | none =>
        have hfn := svc_forward_external_no_handler fuel g FID_FORWARD_EXT a1 a2 a3 a4 a5 a6 a7
          ⟨SMC_ERR_UNKNOWN_FID, 0, 0, 0⟩ hl hh
        exact ⟨_, _, smc_handler_hit ⟨FID_FORWARD_EXT, svc_forward_external, "forward_external"⟩
          forward_entry_mem (fuel + 1) g _ a1 a2 a3 a4 a5 a6 a7 r _ (-3) hfn, rfl⟩
      | some h =>
        have hfn := svc_forward_external_handler fuel g h FID_FORWARD_EXT a1 a2 a3 a4 a5 a6 a7
          ⟨SMC_ERR_UNKNOWN_FID, 0, 0, 0⟩ hl hh
        exact ⟨_, _, smc_handler_hit ⟨FID_FORWARD_EXT, svc_forward_external, "forward_external"⟩
          forward_entry_mem (fuel + 1) g _ a1 a2 a3 a4 a5 a6 a7 r _ 0 hfn, rfl⟩
    · exact ⟨_, g, smc_handler_miss (fuel + 1) g a0 a1 a2 a3 a4 a5 a6 a7 r h1 h2 h3, hl⟩

/-! ## Dispatcher-level properties -/

/-- C15: BUSY is never returned. In every state whose handler slot is empty or
holds `example_external_service`, for every `a0..a7`, every buffer content and
every amount of fuel, the r0 of a dispatch that returns is one of OK,
UNKNOWN_FID, INVALID_ARGS, INTERNAL, hence differs from
`BUSY = 0xFFFFFFFFFFFFFFFC`; and with the lock free the dispatch does return. -/
theorem busy_never_returned (fuel : Nat) (g : Globals)
    (a0 a1 a2 a3 a4 a5 a6 a7 : Nat) (r : Rets)
    (hh : g.external_service_handler = none
      ∨ g.external_service_handler = some example_external_service) :
    (∀ (k : Nat) (r' : Rets) (g' : Globals),
      smc_handler k g a0 a1 a2 a3 a4 a5 a6 a7 non_null r = some (r', g') →
        (r'.r0 = SMC_OK ∨ r'.r0 = SMC_ERR_UNKNOWN_FID ∨ r'.r0 = SMC_ERR_INVALID_ARGS
          ∨ r'.r0 = SMC_ERR_INTERNAL)
        ∧ r'.r0 ≠ SMC_ERR_BUSY)
    ∧ (g.spin_lock_val = 0 → ∃ (r' : Rets) (g' : Globals),
        smc_handler (fuel + 1) g a0 a1 a2 a3 a4 a5 a6 a7 non_null r = some (r', g'))
    ∧ SMC_ERR_BUSY = 0xFFFFFFFFFFFFFFFC := by
  refine ⟨?_, ?_, by decide⟩
  · intro k r' g' hret
    have hcls := smc_handler_default_r0 k g g' a0 a1 a2 a3 a4 a5 a6 a7 r r' hh hret
    have hmem : r'.r0 = SMC_OK ∨ r'.r0 = SMC_ERR_UNKNOWN_FID ∨ r'.r0 = SMC_ERR_INVALID_ARGS
        ∨ r'.r0 = SMC_ERR_INTERNAL := by
      rcases hcls with ⟨_, h | h | h⟩ | ⟨_, h⟩
      · exact Or.inl h
      · exact Or.inr (Or.inr (Or.inl h))
      · exact Or.inr (Or.inr (Or.inr h))
      · exact Or.inr (Or.inl h)
    refine ⟨hmem, ?_⟩
    rcases hmem with h | h | h | h <;> rw [h] <;> decide
  · intro hl
    obtain ⟨r', g', hret, _⟩ := smc_handler_returns fuel g a0 a1 a2 a3 a4 a5 a6 a7 non_null r hl
    exact ⟨r', g', hret⟩

theorem busy_never_returned_witness :
    ∃ (r' : Rets) (g' : Globals),
      smc_handler 1 ready_globals FID_FORWARD_EXT 0 1 2 3 4 5 6 non_null ⟨40, 41, 42, 43⟩ =
        some (r', g')
      ∧ r'.r0 ≠ SMC_ERR_BUSY :=
  match (busy_never_returned 0 ready_globals FID_FORWARD_EXT 0 1 2 3 4 5 6 ⟨40, 41, 42, 43⟩
      (Or.inr rfl)).2.1 rfl with
  | ⟨r', g', hret⟩ =>
    ⟨r', g', hret,
      ((busy_never_returned 0 ready_globals FID_FORWARD_EXT 0 1 2 3 4 5 6 ⟨40, 41, 42, 43⟩
        (Or.inr rfl)).1 1 r' g' hret).2⟩

/-- C16: only forwarding touches shared state. For every `a0` other than
`FID_FORWARD_EXT` and every `a1..a7`, `smc_handler` returns the same output
cells for every state, every fuel and every prior cell content, and the state
(buffer, lock word, handler slot) it returns is the one it was given; the
state is also left alone when some output pointer is null. -/
theorem only_forward_touches_shared_state (a0 a1 a2 a3 a4 a5 a6 a7 : Nat)
    (hne : a0 ≠ FID_FORWARD_EXT) :
    (∃ r' : Rets, ∀ (fuel : Nat) (g : Globals) (r : Rets),
      smc_handler fuel g a0 a1 a2 a3 a4 a5 a6 a7 non_null r = some (r', g))
    ∧ (∀ (fuel : Nat) (g : Globals) (p : RetPtrs) (r : Rets), ∃ x : Rets,
      smc_handler fuel g a0 a1 a2 a3 a4 a5 a6 a7 p r = some (x, g)) := by
  have hfirst : ∃ r' : Rets, ∀ (fuel : Nat) (g : Globals) (r : Rets),
      smc_handler fuel g a0 a1 a2 a3 a4 a5 a6 a7 non_null r = some (r', g) := by
    by_cases h1 : a0 = FID_ECHO
    · subst h1
      exact ⟨_, fun fuel g r => smc_handler_echo fuel g a1 a2 a3 a4 a5 a6 a7 r⟩
    by_cases h2 : a0 = FID_MATH
    · subst h2
      obtain ⟨m, _, hall⟩ := smc_handler_math a1 a2 a3 a4 a5 a6 a7
      exact ⟨m, hall⟩
    · exact ⟨_, fun fuel g r => smc_handler_miss fuel g a0 a1 a2 a3 a4 a5 a6 a7 r h1 h2 hne⟩
  refine ⟨hfirst, ?_⟩
  intro fuel g p r
  cases hp : p.any_null with
  | true => exact ⟨r, by simp [smc_handler, hp]⟩
  | false =>
    have hpn := eq_non_null_of_any_null p hp
    subst hpn
    obtain ⟨r', hall⟩ := hfirst
    exact ⟨r', hall fuel g r⟩

theorem only_forward_touches_shared_state_witness :
    (∃ r' : Rets, ∀ (fuel : Nat) (g : Globals) (r : Rets),
      smc_handler fuel g FID_MATH 1 6 7 0 0 0 0 non_null r = some (r', g))
    ∧ (∀ (fuel : Nat) (g : Globals) (p : RetPtrs) (r : Rets), ∃ x : Rets,
      smc_handler fuel g FID_MATH 1 6 7 0 0 0 0 p r = some (x, g)) :=
  only_forward_touches_shared_state FID_MATH 1 6 7 0 0 0 0 (by decide)

/-- C17: lock discipline. For every `a0..a7`, every buffer content, every
handler slot value (empty or any handler) and any output pointers, if the lock
word is 0 when `smc_handler` is entered then the call returns (any positive
fuel) and the lock word is 0 on return; the same holds for
`svc_forward_external` called directly. -/
theorem lock_free_on_return (fuel : Nat) (g : Globals)
    (a0 a1 a2 a3 a4 a5 a6 a7 : Nat) (p : RetPtrs) (r : Rets) (hl : g.spin_lock_val = 0) :
    (∃ (r' : Rets) (g' : Globals),
      smc_handler (fuel + 1) g a0 a1 a2 a3 a4 a5 a6 a7 p r = some (r', g')
      ∧ g'.spin_lock_val = 0)
    ∧ (∃ (rc : Int) (s : Rets) (g' : Globals),
      svc_forward_external (fuel + 1) g a0 a1 a2 a3 a4 a5 a6 a7 p r = some (rc, s, g')
      ∧ g'.spin_lock_val = 0) := by
  refine ⟨smc_handler_returns fuel g a0 a1 a2 a3 a4 a5 a6 a7 p r hl, ?_⟩
  cases hp : p.any_null with
  | true => exact ⟨int_of_u64 SMC_ERR_INTERNAL, r, g, by simp [svc_forward_external, hp], hl⟩
  | false =>
    have hpn := eq_non_null_of_any_null p hp
    subst hpn
    cases hh : g.external_service_handler with
    | none =>
      exact ⟨_, _, _, svc_forward_external_no_handler fuel g a0 a1 a2 a3 a4 a5 a6 a7 r hl hh, rfl⟩
    | some h =>
      exact ⟨_, _, _, svc_forward_external_handler fuel g h a0 a1 a2 a3 a4 a5 a6 a7 r hl hh, rfl⟩

theorem lock_free_on_return_witness :
    (∃ (r' : Rets) (g' : Globals),
      smc_handler 1 stale_a FID_FORWARD_EXT 0x10 1 2 3 4 5 6 non_null ⟨40, 41, 42, 43⟩ =
        some (r', g')
      ∧ g'.spin_lock_val = 0)
    ∧ (∃ (rc : Int) (s : Rets) (g' : Globals),
      svc_forward_external 1 stale_a FID_FORWARD_EXT 0x10 1 2 3 4 5 6 non_null
        ⟨40, 41, 42, 43⟩ = some (rc, s, g')
      ∧ g'.spin_lock_val = 0) :=
  lock_free_on_return 0 stale_a FID_FORWARD_EXT 0x10 1 2 3 4 5 6 non_null ⟨40, 41, 42, 43⟩ rfl

/-- C18: UNKNOWN_FID characterises registry misses. In the default
configuration (handler slot empty or holding `example_external_service`), for
every `a0..a7`, every buffer content and every fuel, a dispatch that returns
has `r0 = UNKNOWN_FID` if and only if `a0` is none of the three registered FIDs
(the preset never survives a call to a registered service); with the lock
free the dispatch does return. -/
theorem unknown_fid_iff_unregistered (fuel : Nat) (g : Globals)
    (a0 a1 a2 a3 a4 a5 a6 a7 : Nat) (r : Rets)
    (hh : g.external_service_handler = none
      ∨ g.external_service_handler = some example_external_service) :
    (∀ (k : Nat) (r' : Rets) (g' : Globals),
      smc_handler k g a0 a1 a2 a3 a4 a5 a6 a7 non_null r = some (r', g') →
        (r'.r0 = SMC_ERR_UNKNOWN_FID ↔
          (a0 ≠ FID_ECHO ∧ a0 ≠ FID_MATH ∧ a0 ≠ FID_FORWARD_EXT)))
    ∧ (g.spin_lock_val = 0 → ∃ (r' : Rets) (g' : Globals),
        smc_handler (fuel + 1) g a0 a1 a2 a3 a4 a5 a6 a7 non_null r = some (r', g')
        ∧ (r'.r0 = SMC_ERR_UNKNOWN_FID ↔
          (a0 ≠ FID_ECHO ∧ a0 ≠ FID_MATH ∧ a0 ≠ FID_FORWARD_EXT))) := by
  have hiff : ∀ (k : Nat) (r' : Rets) (g' : Globals),
      smc_handler k g a0 a1 a2 a3 a4 a5 a6 a7 non_null r = some (r', g') →
        (r'.r0 = SMC_ERR_UNKNOWN_FID ↔
          (a0 ≠ FID_ECHO ∧ a0 ≠ FID_MATH ∧ a0 ≠ FID_FORWARD_EXT)) := by
    intro k r' g' hret
    rcases smc_handler_default_r0 k g g' a0 a1 a2 a3 a4 a5 a6 a7 r r' hh hret with
      ⟨hreg, hval⟩ | ⟨hunreg, hval⟩
    · constructor
      · intro hu
        rw [hu] at hval
        exact absurd hval (by decide)
      · intro hne
        rcases hreg with h | h | h
        · exact absurd h hne.1
        · exact absurd h hne.2.1
        · exact absurd h hne.2.2
    · exact ⟨fun _ => hunreg, fun _ => hval⟩
  refine ⟨hiff, ?_⟩
  intro hl
  obtain ⟨r', g', hret, _⟩ := smc_handler_returns fuel g a0 a1 a2 a3 a4 a5 a6 a7 non_null r hl
  exact ⟨r', g', hret, hiff (fuel + 1) r' g' hret⟩

theorem unknown_fid_iff_unregistered_witness :
    ∃ (r' : Rets) (g' : Globals),
      smc_handler 1 ready_globals FID_FORWARD_EXT 0 1 2 3 4 5 6 non_null ⟨40, 41, 42, 43⟩ =
        some (r', g')
      ∧ (r'.r0 = SMC_ERR_UNKNOWN_FID ↔
          (FID_FORWARD_EXT ≠ FID_ECHO ∧ FID_FORWARD_EXT ≠ FID_MATH
            ∧ FID_FORWARD_EXT ≠ FID_FORWARD_EXT)) :=
  (unknown_fid_iff_unregistered 0 ready_globals FID_FORWARD_EXT 0 1 2 3 4 5 6 ⟨40, 41, 42, 43⟩
    (Or.inr rfl)).2 rfl

/-- C19: forwarding discards the external handler's return code. For two
handlers that write the same cells whatever they return, registered in
otherwise equal states with the lock free, `svc_forward_external` returns 0
with the same cells and leaves the same buffer, and `smc_handler` reports the
same `(r0, r1, r2, r3)`, namely the cells the handler wrote: r0 is the status
cell, never a handler return code. -/
theorem forward_discards_handler_return_code (fuel : Nat) (g : Globals)
    (h1 h2 : smc_service_t) (a0 a1 a2 a3 a4 a5 a6 a7 : Nat) (r : Rets)
    (hl : g.spin_lock_val = 0)
    (hsame : ∀ (b0 b1 b2 b3 b4 b5 b6 b7 : Nat) (p : RetPtrs) (c : Rets),
      (h1 b0 b1 b2 b3 b4 b5 b6 b7 p c).2 = (h2 b0 b1 b2 b3 b4 b5 b6 b7 p c).2) :
    (∃ (s : Rets) (g1 g2 : Globals),
      svc_forward_external (fuel + 1) (register_external_service g (some h1))
        a0 a1 a2 a3 a4 a5 a6 a7 non_null r = some (0, s, g1)
      ∧ svc_forward_external (fuel + 1) (register_external_service g (some h2))
        a0 a1 a2 a3 a4 a5 a6 a7 non_null r = some (0, s, g2)
      ∧ g1.shared_cmd = g2.shared_cmd)
    ∧ (∃ (g1 g2 : Globals),
      smc_handler (fuel + 1) (register_external_service g (some h1))
        FID_FORWARD_EXT a1 a2 a3 a4 a5 a6 a7 non_null r =
        some ((h1 FID_FORWARD_EXT a1 a2 a3 a4 a5 a6 a7 non_null
          ⟨g.shared_cmd.status, g.shared_cmd.results0, g.shared_cmd.results1,
            g.shared_cmd.results2⟩).2, g1)
      ∧ smc_handler (fuel + 1) (register_external_service g (some h2))
        FID_FORWARD_EXT a1 a2 a3 a4 a5 a6 a7 non_null r =
        some ((h1 FID_FORWARD_EXT a1 a2 a3 a4 a5 a6 a7 non_null
          ⟨g.shared_cmd.status, g.shared_cmd.results0, g.shared_cmd.results1,
            g.shared_cmd.results2⟩).2, g2)) := by
  have hf : ∀ (h : smc_service_t) (b0 : Nat) (c : Rets),
      svc_forward_external (fuel + 1) (register_external_service g (some h))
        b0 a1 a2 a3 a4 a5 a6 a7 non_null c = _ :=
    fun h b0 c => svc_forward_external_handler fuel (register_external_service g (some h)) h
      b0 a1 a2 a3 a4 a5 a6 a7 c hl rfl
  constructor
  · rw [hf h1 a0 r, hf h2 a0 r]
    simp only [register_external_service, hsame]
    exact ⟨_, _, _, rfl, rfl, rfl⟩
  · have hhit : ∀ h : smc_service_t, _ := fun h =>
      smc_handler_hit ⟨FID_FORWARD_EXT, svc_forward_external, "forward_external"⟩
        forward_entry_mem (fuel + 1) (register_external_service g (some h)) _
        a1 a2 a3 a4 a5 a6 a7 r _ 0 (hf h FID_FORWARD_EXT ⟨SMC_ERR_UNKNOWN_FID, 0, 0, 0⟩)
    rw [hhit h1, hhit h2]
    simp only [register_external_service, hsame]
    exact ⟨_, _, rfl, rfl⟩

theorem forward_discards_handler_return_code_witness :
    (example_external_service FID_FORWARD_EXT 0 1 2 3 4 5 6 non_null ⟨30, 31, 32, 33⟩).1 = -2
    ∧ (quiet_external_service FID_FORWARD_EXT 0 1 2 3 4 5 6 non_null ⟨30, 31, 32, 33⟩).1 = 0
    ∧ ∃ (g1 g2 : Globals),
      smc_handler 1 (register_external_service boot_globals (some example_external_service))
        FID_FORWARD_EXT 0 1 2 3 4 5 6 non_null ⟨40, 41, 42, 43⟩ =
        some (⟨SMC_ERR_INVALID_ARGS, 31, 32, 33⟩, g1)
      ∧ smc_handler 1 (register_external_service boot_globals (some quiet_external_service))
        FID_FORWARD_EXT 0 1 2 3 4 5 6 non_null ⟨40, 41, 42, 43⟩ =
        some (⟨SMC_ERR_INVALID_ARGS, 31, 32, 33⟩, g2) :=
  ⟨by decide, by decide,
   (forward_discards_handler_return_code 0 boot_globals example_external_service
      quiet_external_service FID_FORWARD_EXT 0 1 2 3 4 5 6 ⟨40, 41, 42, 43⟩ rfl
      (fun _ _ _ _ _ _ _ _ _ _ => rfl)).2⟩

/-- C20: the buffer self-check of forwarding cannot fail. The command buffer
starts at 0x00100000 and is `sizeof(struct smc_shared_cmd) = 184` bytes long
(no more than `SHARED_BUF_SIZE`), and `is_valid_tee_range` accepts that range.
So every call of `svc_forward_external` with non-null outputs that returns has
gone past the check and has stamped the buffer (magic, version, `fid = a0`,
`args[i] = ai`), whatever the inputs; and `smc_services_init` always writes its
initial values (magic, version, `fid = 0`, `status = INTERNAL`, four zeroed
results) and registers the default handler. -/
theorem shared_buffer_check_never_fails (fuel : Nat) (g g' : Globals)
    (a0 a1 a2 a3 a4 a5 a6 a7 : Nat) (r s : Rets) (rc : Int)
    (hret : svc_forward_external fuel g a0 a1 a2 a3 a4 a5 a6 a7 non_null r = some (rc, s, g')) :
    SHARED_BUF_ADDR = 0x00100000
    ∧ sizeof_smc_shared_cmd = 184
    ∧ sizeof_smc_shared_cmd ≤ SHARED_BUF_SIZE
    ∧ is_valid_tee_range SHARED_BUF_ADDR sizeof_smc_shared_cmd = 1
    ∧ (g'.shared_cmd.magic = 0x534D4353 ∧ g'.shared_cmd.version = 1 ∧ g'.shared_cmd.fid = a0
      ∧ g'.shared_cmd.args0 = a0 ∧ g'.shared_cmd.args1 = a1 ∧ g'.shared_cmd.args2 = a2
      ∧ g'.shared_cmd.args3 = a3 ∧ g'.shared_cmd.args4 = a4 ∧ g'.shared_cmd.args5 = a5
      ∧ g'.shared_cmd.args6 = a6 ∧ g'.shared_cmd.args7 = a7)
    ∧ (smc_services_init g).shared_cmd =
        { g.shared_cmd with
          magic := 0x534D4353, version := 1, fid := 0, status := SMC_ERR_INTERNAL,
          results0 := 0, results1 := 0, results2 := 0, results3 := 0 }
    ∧ (smc_services_init g).external_service_handler = some example_external_service
    ∧ (smc_services_init g).spin_lock_val = g.spin_lock_val := by
  refine ⟨by decide, by decide, by decide, shared_buf_in_tee,
    (svc_forward_external_inv fuel g g' a0 a1 a2 a3 a4 a5 a6 a7 r s rc hret).1, ?_,
    (smc_services_init_lock_handler g).2, (smc_services_init_lock_handler g).1⟩
  simp [smc_services_init, register_external_service, shared_buf_in_tee, SMC_SHM_MAGIC]

theorem shared_buffer_check_never_fails_witness :
    ∃ g' : Globals,
      svc_forward_external 1 boot_globals 9 1 2 3 4 5 6 7 non_null ⟨40, 41, 42, 43⟩ =
        some (-3, ⟨SMC_ERR_INTERNAL, 41, 42, 43⟩, g')
      ∧ g'.shared_cmd.magic = 0x534D4353 ∧ g'.shared_cmd.fid = 9 ∧ g'.shared_cmd.args7 = 7
      ∧ (smc_services_init boot_globals).shared_cmd.status = SMC_ERR_INTERNAL :=
  have hret := svc_forward_external_no_handler 0 boot_globals 9 1 2 3 4 5 6 7
    ⟨40, 41, 42, 43⟩ rfl rfl
  have hall := shared_buffer_check_never_fails 1 boot_globals _ 9 1 2 3 4 5 6 7
    ⟨40, 41, 42, 43⟩ _ (-3) hret
  ⟨_, hret, hall.2.2.2.2.1.1, hall.2.2.2.2.1.2.2.1, hall.2.2.2.2.1.2.2.2.2.2.2.2.2.2.2,
    congrArg smc_shared_cmd.status hall.2.2.2.2.2.1⟩

end El3
